import Mathlib

/-!
# CleanSkies: the AQI computation layer

A shallow embedding of `server/routes/airQuality.js` (the PM2.5 breakpoint
table, `calculateAqiFromPm25`, and the handlers of the map route and of the
current-reading route, and the adapter `fetchOpenAqMeasurements`), of
`getAQICategory` and the profile update from `server/simple-server.js`, and of
the update filter of `server/routes/user.js`.

The handlers are functions of what the network call did, of the bundled sample
dataset and of the current time, which are their inputs from outside.

Number model.  A finite JavaScript number is an exact rational, so the
interpolation `(iHigh - iLow) / (cHigh - cLow) * (pm25 - cLow) + iLow` is
computed without rounding error, and `Math.round x` is `⌊x + 1/2⌋` (nearest
integer, ties towards `+∞`).  `NaN` is a separate constructor, `null` (and
`undefined`, which `== null` also accepts) is `none`.
-/

namespace CleanSkies

/-! ## Data model -/

/-- A JavaScript number: `NaN` or a finite value. -/
inductive JsNumber where
  | nan : JsNumber
  | fin (c : ℚ) : JsNumber
  deriving DecidableEq

/-- One entry of the `ranges` array literal in `calculateAqiFromPm25`. -/
structure Range where
  cLow : ℚ
  cHigh : ℚ
  iLow : ℤ
  iHigh : ℤ
  category : String
  deriving DecidableEq

/-- The object returned by `calculateAqiFromPm25`; `value = none` is `null`
and `description = none` is `undefined`. -/
structure AqiResult where
  value : Option ℤ
  category : String
  description : Option String
  deriving DecidableEq

/-- The `ranges` array of `calculateAqiFromPm25` (EPA breakpoints for PM2.5). -/
def ranges : List Range :=
  [ { cLow := 0, cHigh := 12, iLow := 0, iHigh := 50, category := "Good" },
    { cLow := 121 / 10, cHigh := 354 / 10, iLow := 51, iHigh := 100, category := "Moderate" },
    { cLow := 355 / 10, cHigh := 554 / 10, iLow := 101, iHigh := 150,
      category := "Unhealthy for Sensitive Groups" },
    { cLow := 555 / 10, cHigh := 1504 / 10, iLow := 151, iHigh := 200, category := "Unhealthy" },
    { cLow := 1505 / 10, cHigh := 2504 / 10, iLow := 201, iHigh := 300,
      category := "Very Unhealthy" },
    { cLow := 2505 / 10, cHigh := 5004 / 10, iLow := 301, iHigh := 500,
      category := "Hazardous" } ]

/-- The object literal `descMap`; a key that is not listed reads `undefined`. -/
def descMap (category : String) : Option String :=
  if category = "Good" then
    some "Air quality is satisfactory and poses little or no risk"
  else if category = "Moderate" then
    some "Acceptable; some pollutants may be a concern for a few"
  else if category = "Unhealthy for Sensitive Groups" then
    some "Members of sensitive groups may experience health effects"
  else if category = "Unhealthy" then
    some "Everyone may begin to experience health effects"
  else if category = "Very Unhealthy" then
    some "Health alert: everyone may experience more serious effects"
  else if category = "Hazardous" then
    some "Emergency conditions. The entire population is likely to be affected"
  else none

/-- JavaScript `Math.round` on a finite number. -/
def mathRound (x : ℚ) : ℤ := ⌊x + 1 / 2⌋

/-- The predicate of `ranges.find`: `pm25 >= r.cLow && pm25 <= r.cHigh`. -/
def inRange (pm25 : ℚ) (r : Range) : Bool :=
  decide (r.cLow ≤ pm25) && decide (pm25 ≤ r.cHigh)

/-- The interpolation expression under `Math.round`. -/
def interpolate (bp : Range) (pm25 : ℚ) : ℚ :=
  ((bp.iHigh - bp.iLow : ℤ) : ℚ) / (bp.cHigh - bp.cLow) * (pm25 - bp.cLow) + (bp.iLow : ℚ)

/-- The function `calculateAqiFromPm25` of `server/routes/airQuality.js`. -/
def calculateAqiFromPm25 : Option JsNumber → AqiResult
  | none => { value := none, category := "Unknown", description := some "No PM2.5 data" }
  | some .nan => { value := none, category := "Unknown", description := some "No PM2.5 data" }
  | some (.fin pm25) =>
    match ranges.find? (inRange pm25) with
    | none =>
      { value := some 500, category := "Hazardous", description := some "PM2.5 extremely high" }
    | some bp =>
      { value := some (mathRound (interpolate bp pm25)),
        category := bp.category,
        description := descMap bp.category }

/-- The function `getAQICategory` of `server/simple-server.js`. -/
def getAQICategory (aqi : ℤ) : String :=
  if aqi ≤ 50 then "Good"
  else if aqi ≤ 100 then "Moderate"
  else if aqi ≤ 150 then "Unhealthy for Sensitive Groups"
  else if aqi ≤ 200 then "Unhealthy"
  else if aqi ≤ 300 then "Very Unhealthy"
  else "Hazardous"

/-- Position of a category label in the ordered list of the six severity
bands (0 = Good, 5 = Hazardous); any other label is placed after them. -/
def severityRank (category : String) : ℕ :=
  if category = "Good" then 0
  else if category = "Moderate" then 1
  else if category = "Unhealthy for Sensitive Groups" then 2
  else if category = "Unhealthy" then 3
  else if category = "Very Unhealthy" then 4
  else if category = "Hazardous" then 5
  else 6

/-! ## Provider data

The body that `fetchOpenAqMeasurements` returns is parsed JSON.  The types
below keep the shapes the two route handlers distinguish. -/

/-- The `parameter` field of a measurement: missing, a plain string, or a
nested object whose `name` field may be missing. -/
inductive Parameter where
  | absent : Parameter
  | str (s : String) : Parameter
  | obj (name : Option String) : Parameter
  deriving DecidableEq

/-- The property key that `m.parameter?.name || m.parameter` denotes: the
name of a nested object unless it is missing or empty, else the parameter
itself converted to a property key. -/
def Parameter.key : Parameter → String
  | .absent => "undefined"
  | .str s => s
  | .obj none => "[object Object]"
  | .obj (some n) => if n = "" then "[object Object]" else n

/-- The `coordinates` object of a measurement, with numeric fields. -/
structure Coordinates where
  latitude : ℚ
  longitude : ℚ
  deriving DecidableEq

/-- A measurement object of the provider; `value = none` is a missing or
`null` value, `coordinates = none` a missing (falsy) `coordinates` field and
`datetimeUtc = none` a missing or empty `datetime.utc`. -/
structure Measurement where
  parameter : Parameter
  value : Option ℚ
  coordinates : Option Coordinates
  datetimeUtc : Option String
  deriving DecidableEq

/-- An element of the `results` array: `null` (reading a property of it
throws), a primitive (every property reads `undefined`), or an object. -/
inductive JsonEntry where
  | null : JsonEntry
  | primitive : JsonEntry
  | meas (m : Measurement) : JsonEntry
  deriving DecidableEq

/-- The `results` field of the body: falsy (missing, `null`, `false`, `0`,
the empty string), an array, or a truthy value that cannot be iterated.  A
non-empty string iterates as its characters, an array of primitives. -/
inductive ResultsField where
  | falsy : ResultsField
  | list (es : List JsonEntry) : ResultsField
  | notIterable : ResultsField
  deriving DecidableEq

/-- The parsed body: `null`, or a value whose `results` field can be read. -/
inductive Body where
  | null : Body
  | obj (results : ResultsField) : Body
  deriving DecidableEq

/-- `Number(v)` for a value that is a number or `null`: `Number(null)` is 0. -/
def toNumber (v : Option ℚ) : JsNumber := JsNumber.fin (v.getD 0)

/-! ## The map route -/

/-- The arrow function `colorForAqi` of the map route. -/
def colorForAqi (aqi : ℤ) : String :=
  if aqi ≤ 50 then "#00E400"
  else if aqi ≤ 100 then "#FFFF00"
  else if aqi ≤ 150 then "#FF8C00"
  else if aqi ≤ 200 then "#FF0000"
  else if aqi ≤ 300 then "#8F3F97"
  else "#7E0023"

/-- Position of a colour in the ordered list of the six band colours; any
other string is placed after them. -/
def colorRank (color : String) : ℕ :=
  if color = "#00E400" then 0
  else if color = "#FFFF00" then 1
  else if color = "#FF8C00" then 2
  else if color = "#FF0000" then 3
  else if color = "#8F3F97" then 4
  else if color = "#7E0023" then 5
  else 6

/-- The key of `byLoc`.  The source builds the string
"latitude,longitude"; two pairs of numbers give the same string exactly when
they are equal, so the pair itself is the key. -/
def keyFor (c : Coordinates) : ℚ × ℚ := (c.latitude, c.longitude)

/-- An entry object of `byLoc`: the properties set by `entry[p] = m`, the
most recently set first, and `_coords`. -/
structure LocEntry where
  fields : List (String × Measurement)
  coords : Coordinates
  deriving DecidableEq

/-- Reading `entry[p]`: the last measurement assigned to the property. -/
def LocEntry.get (e : LocEntry) (p : String) : Option Measurement :=
  e.fields.lookup p

/-- One pass of the grouping loop body for a measurement with coordinates `c`
on the insertion-ordered map `byLoc`: an existing key keeps its position and its
entry gets `entry[p] = m; entry._coords = c`, a new key is appended with a
fresh entry that gets the same two assignments. -/
def setEntry (key : ℚ × ℚ) (m : Measurement) (c : Coordinates) :
    List ((ℚ × ℚ) × LocEntry) → List ((ℚ × ℚ) × LocEntry)
  | [] => [(key, { fields := [(m.parameter.key, m)], coords := c })]
  | (k, e) :: rest =>
    if k = key then (k, { fields := (m.parameter.key, m) :: e.fields, coords := c }) :: rest
    else (k, e) :: setEntry key m c rest

/-- The body of the grouping loop: `if (!m.coordinates) continue; ...`. -/
def groupStep (byLoc : List ((ℚ × ℚ) × LocEntry)) (m : Measurement) :
    List ((ℚ × ℚ) × LocEntry) :=
  match m.coordinates with
  | none => byLoc
  | some c => setEntry (keyFor c) m c byLoc

/-- The grouping loop `for (const m of results)` of the map route, started
from `byLoc`; `none` means that the loop threw, which happens at a `null`
entry when `m.coordinates` is read. -/
def groupFrom (byLoc : List ((ℚ × ℚ) × LocEntry)) :
    List JsonEntry → Option (List ((ℚ × ℚ) × LocEntry))
  | [] => some byLoc
  | .null :: _ => none
  | .primitive :: rest => groupFrom byLoc rest
  | .meas m :: rest => groupFrom (groupStep byLoc m) rest

/-- The grouping loop started from the empty `Map`. -/
def groupByLocation (results : List JsonEntry) : Option (List ((ℚ × ℚ) × LocEntry)) :=
  groupFrom [] results

/-- An element of `mapData`. -/
structure MapPoint where
  latitude : ℚ
  longitude : ℚ
  aqi : ℤ
  category : String
  pm25 : Option ℚ
  pm10 : Option ℚ
  color : String
  deriving DecidableEq

/-- The expression `calculateAqiFromPm25(Number(pm25)).value ?? 0`. -/
def aqiPm25 (pm25 : Option ℚ) : ℤ :=
  ((calculateAqiFromPm25 (some (toNumber pm25))).value).getD 0

/-- The expression
`aqiPm25 || Math.min(Math.round((Number(pm10) || 0) * 0.5), 200)`; the left
operand is falsy exactly when it is 0. -/
def approxAqi (pm25 pm10 : Option ℚ) : ℤ :=
  if aqiPm25 pm25 ≠ 0 then aqiPm25 pm25
  else min (mathRound ((if pm10.getD 0 = 0 then 0 else pm10.getD 0) * (1 / 2))) 200

/-- The body of the loop over `byLoc.entries()` that builds one point. -/
def pointOf (entry : LocEntry) : MapPoint :=
  let pm25 := (entry.get "pm25").bind (fun m => m.value)
  let pm10 := (entry.get "pm10").bind (fun m => m.value)
  let approx := approxAqi pm25 pm10
  { latitude := entry.coords.latitude,
    longitude := entry.coords.longitude,
    aqi := approx,
    category :=
      if approx ≤ 50 then "Good"
      else if approx ≤ 100 then "Moderate"
      else if approx ≤ 150 then "Unhealthy for Sensitive Groups"
      else if approx ≤ 200 then "Unhealthy"
      else if approx ≤ 300 then "Very Unhealthy"
      else "Hazardous",
    pm25 := pm25,
    pm10 := pm10,
    color := colorForAqi approx }

/-- The array `points` built from `byLoc`, in the iteration order of the `Map`. -/
def pointsOf (byLoc : List ((ℚ × ℚ) × LocEntry)) : List MapPoint :=
  byLoc.map (fun kv => pointOf kv.2)

/-- A value of `Math.max(...xs)` or `Math.min(...xs)`: finite, or the infinity
that the function returns for an empty argument list. -/
inductive Extreme where
  | negInf : Extreme
  | fin (x : ℚ) : Extreme
  | posInf : Extreme
  deriving DecidableEq

/-- `Math.max(...xs)` on finite numbers. -/
def mathMax : List ℚ → Extreme
  | [] => Extreme.negInf
  | x :: xs => Extreme.fin (xs.foldl max x)

/-- `Math.min(...xs)` on finite numbers. -/
def mathMin : List ℚ → Extreme
  | [] => Extreme.posInf
  | x :: xs => Extreme.fin (xs.foldl min x)

/-- The `bounds` object of a map response. -/
structure Bounds where
  north : Extreme
  south : Extreme
  east : Extreme
  west : Extreme
  deriving DecidableEq

/-- The `bounds` literal, which is the same expression over `sample.mapData`
and over `points`. -/
def boundsOf (pts : List MapPoint) : Bounds :=
  { north := mathMax (pts.map (fun p => p.latitude)),
    south := mathMin (pts.map (fun p => p.latitude)),
    east := mathMax (pts.map (fun p => p.longitude)),
    west := mathMin (pts.map (fun p => p.longitude)) }

/-- The bundled dataset `data/airQualitySample.json`, which the handlers read
and parse.  The file is not among the sources, so its content is a parameter:
the `mapData` points and the `value` of each pollutant of `currentData`. -/
structure Sample where
  mapData : List MapPoint
  pm25 : Option ℚ
  pm10 : Option ℚ
  o3 : Option ℚ
  no2 : Option ℚ
  so2 : Option ℚ
  co : Option ℚ
  deriving DecidableEq

/-- The JSON object a successful map response carries. -/
structure MapResponse where
  mapData : List MapPoint
  bounds : Bounds
  lastUpdated : String
  dataSource : String
  deriving DecidableEq

/-- What the map route sends: a response object, or status 500 from the
outer `catch`. -/
inductive MapResult where
  | ok (r : MapResponse) : MapResult
  | error500 : MapResult
  deriving DecidableEq

/-- The response both sample branches of the map route build. -/
def sampleMapResponse (sample : Sample) (now : String) (dataSource : String) : MapResponse :=
  { mapData := sample.mapData,
    bounds := boundsOf sample.mapData,
    lastUpdated := now,
    dataSource := dataSource }

/-- The part of the map route after the inner `try`: group `results`, build
the points, and answer with them or with the sample when there are none.  A
throw in the grouping loop reaches the outer `catch`. -/
def mapFromResults (results : List JsonEntry) (sample : Sample) (now : String) : MapResult :=
  match groupByLocation results with
  | none => MapResult.error500
  | some byLoc =>
    if (pointsOf byLoc).length = 0 then
      MapResult.ok (sampleMapResponse sample now "sample_empty")
    else
      MapResult.ok
        { mapData := pointsOf byLoc,
          bounds := boundsOf (pointsOf byLoc),
          lastUpdated := now,
          dataSource := "openaq_v3" }

/-- The handler of `GET /map`, given what `fetchOpenAqMeasurements` did
(`Except.error` when it threw), the sample dataset and the current time.  In
the inner `try` only the call and `openaq.results || []` run, so a throw there
(the adapter failing, or a `null` body) gives the sample; iterating a value
that is not iterable throws after the `try`. -/
def mapHandler (outcome : Except String Body) (sample : Sample) (now : String) : MapResult :=
  match outcome with
  | .error _ => MapResult.ok (sampleMapResponse sample now "sample_fallback")
  | .ok Body.null => MapResult.ok (sampleMapResponse sample now "sample_fallback")
  | .ok (Body.obj .falsy) => mapFromResults [] sample now
  | .ok (Body.obj .notIterable) => MapResult.error500
  | .ok (Body.obj (.list es)) => mapFromResults es sample now

/-! ## The current-reading route -/

/-- The loop body `if (!latestByParam[p]) latestByParam[p] = m`: a stored
measurement is an object, hence truthy, so a key is assigned once. -/
def latestStep (latest : List (String × Measurement)) (m : Measurement) :
    List (String × Measurement) :=
  if (latest.lookup m.parameter.key).isSome then latest
  else (m.parameter.key, m) :: latest

/-- The loop over `openaq.results || []` of the current route, started from
`latest`; `none` means that it threw, which happens at a `null` entry.  A
primitive entry only touches the key "undefined", which is never read. -/
def latestFrom (latest : List (String × Measurement)) :
    List JsonEntry → Option (List (String × Measurement))
  | [] => some latest
  | .null :: _ => none
  | .primitive :: rest => latestFrom latest rest
  | .meas m :: rest => latestFrom (latestStep latest m) rest

/-- The object `latestByParam` after the loop. -/
def latestByParam (results : List JsonEntry) : Option (List (String × Measurement)) :=
  latestFrom [] results

/-- The six pollutant values of a current response. -/
structure Pollutants where
  pm25 : Option ℚ
  pm10 : Option ℚ
  o3 : Option ℚ
  no2 : Option ℚ
  so2 : Option ℚ
  co : Option ℚ
  deriving DecidableEq

/-- The assignments `pm25 = latestByParam.pm25?.value ?? null` and so on. -/
def livePollutants (latest : List (String × Measurement)) : Pollutants :=
  { pm25 := (latest.lookup "pm25").bind (fun m => m.value),
    pm10 := (latest.lookup "pm10").bind (fun m => m.value),
    o3 := (latest.lookup "o3").bind (fun m => m.value),
    no2 := (latest.lookup "no2").bind (fun m => m.value),
    so2 := (latest.lookup "so2").bind (fun m => m.value),
    co := (latest.lookup "co").bind (fun m => m.value) }

/-- The assignments of the `catch` branch of the current route. -/
def samplePollutants (sample : Sample) : Pollutants :=
  { pm25 := sample.pm25, pm10 := sample.pm10, o3 := sample.o3,
    no2 := sample.no2, so2 := sample.so2, co := sample.co }

/-- The value of `latestByParam` when the inner `try` of the current route
completes, and `none` when it throws: the adapter failing, a `null` body, a
`results` value that is not iterable, or a `null` entry. -/
def liveLatest : Except String Body → Option (List (String × Measurement))
  | .error _ => none
  | .ok Body.null => none
  | .ok (Body.obj .falsy) => latestByParam []
  | .ok (Body.obj .notIterable) => none
  | .ok (Body.obj (.list es)) => latestByParam es

/-- The pollutant variables after the inner `try ... catch` of the current
route. -/
def currentPollutants (outcome : Except String Body) (sample : Sample) : Pollutants :=
  match liveLatest outcome with
  | some latest => livePollutants latest
  | none => samplePollutants sample

/-- The variable `updatedAt` after the inner `try ... catch`. -/
def currentTimestamp (outcome : Except String Body) (now : String) : String :=
  match liveLatest outcome with
  | some latest => ((latest.lookup "pm25").bind (fun m => m.datetimeUtc)).getD now
  | none => now

/-- The field `req.user.healthData`. -/
structure HealthData where
  sensitivity : Option String
  conditions : Option (List String)
  deriving DecidableEq

/-- An element of `personalizedRecommendations`. -/
structure Recommendation where
  type : String
  message : String
  severity : String
  deriving DecidableEq

/-- The personalisation block of the current route; `none` is a missing
`req.user` or `healthData`. -/
def personalizedRecommendations (health : Option HealthData) (aqi : AqiResult) :
    List Recommendation :=
  let sensitive : Bool :=
    match health with
    | none => false
    | some h => decide (h.sensitivity = some "high") ||
        (match h.conditions with
         | none => false
         | some cs => cs.contains "asthma")
  let copd : Bool :=
    match health with
    | none => false
    | some h =>
      match h.conditions with
      | none => false
      | some cs => cs.contains "copd"
  (if sensitive && decide (aqi.value.getD 0 > 50) then
    [{ type := "health_warning",
       message := "High sensitivity detected: consider limiting outdoor exposure",
       severity := "high" }]
   else []) ++
  (if copd && decide (aqi.value.getD 0 > 100) then
    [{ type := "health_warning",
       message := "COPD: Avoid outdoor activities due to poor air quality",
       severity := "critical" }]
   else [])

/-- The `currentData` part and the top-level fields of a current response;
the constant `weather` placeholder and the unit and description strings of the
pollutants are left out. -/
structure CurrentResponse where
  aqi : AqiResult
  pollutants : Pollutants
  timestamp : String
  personalizedRecommendations : List Recommendation
  lastUpdated : String
  dataSource : String
  deriving DecidableEq

/-- The expression `process.env.OPENAQ_API_KEY ? 'openaq_v3' : 'openaq_v3_or_sample'`;
the variable is unset (`none`) or a string, which is truthy unless empty. -/
def currentDataSource (apiKey : Option String) : String :=
  match apiKey with
  | none => "openaq_v3_or_sample"
  | some k => if k = "" then "openaq_v3_or_sample" else "openaq_v3"

/-- The handler of `GET /current`, given the configuration, the user's
health data, what `fetchOpenAqMeasurements` did, the sample dataset and the
current time. -/
def currentHandler (apiKey : Option String) (health : Option HealthData)
    (outcome : Except String Body) (sample : Sample) (now : String) : CurrentResponse :=
  let pollutants := currentPollutants outcome sample
  let aqi := calculateAqiFromPm25 (some (toNumber pollutants.pm25))
  { aqi := aqi,
    pollutants := pollutants,
    timestamp := currentTimestamp outcome now,
    personalizedRecommendations := personalizedRecommendations health aqi,
    lastUpdated := now,
    dataSource := currentDataSource apiKey }

/-! ## The adapter and the request parameters -/

/-- The arguments of a call `fetchOpenAqMeasurements(lat, lng, radiusMeters)`. -/
structure FetchArgs where
  lat : JsNumber
  lng : JsNumber
  radiusMeters : JsNumber
  deriving DecidableEq

/-- What the handler of `fetch` resolves to: the `ok` flag, the status code,
the body text that `res.text()` gives, and what `res.json()` does, which is
to resolve to the parsed body or to reject with a message when the body does
not parse. -/
structure HttpResponse where
  ok : Bool
  status : ℕ
  text : String
  json : Except String Body

/-- The function `fetchOpenAqMeasurements`.  The network is a parameter: for
the request built from the arguments it gives a response, or the message with
which `fetch` rejects. -/
def fetchOpenAqMeasurements (network : FetchArgs → Except String HttpResponse)
    (args : FetchArgs) : Except String Body :=
  match network args with
  | .error message => .error message
  | .ok res =>
    if !res.ok then .error ("OpenAQ error " ++ toString res.status ++ ": " ++ res.text)
    else res.json

/-- The object `req.user.preferences.location`, with numeric fields that may
be missing. -/
structure ProfileLocation where
  latitude : Option ℚ
  longitude : Option ℚ
  deriving DecidableEq

/-- The expression `parseFloat(query ?? profile ?? dflt)`.  A query value is
present as the number `parseFloat` reads from the query string (`NaN` when it
reads none); a profile value is a number, which `parseFloat` returns as it is;
the default is the number that the default string spells. -/
def resolveCoordinate (query : Option JsNumber) (profile : Option ℚ) (dflt : ℚ) : JsNumber :=
  match query with
  | some x => x
  | none =>
    match profile with
    | some q => JsNumber.fin q
    | none => JsNumber.fin dflt

/-- The variable `qLat` of both routes; `location = none` is a missing user,
`preferences` or `location`. -/
def qLatOf (queryLat : Option JsNumber) (location : Option ProfileLocation) : JsNumber :=
  resolveCoordinate queryLat (location.bind (fun l => l.latitude)) (407128 / 10000)

/-- The variable `qLng` of both routes. -/
def qLngOf (queryLng : Option JsNumber) (location : Option ProfileLocation) : JsNumber :=
  resolveCoordinate queryLng (location.bind (fun l => l.longitude)) (-740060 / 10000)

/-- The variable `radiusKm` of the map route: `parseFloat(req.query.radius ?? '10')`. -/
def radiusKmOf (queryRadius : Option JsNumber) : JsNumber :=
  match queryRadius with
  | some x => x
  | none => JsNumber.fin 10

/-- The expression `Math.min(Math.max(radiusKm, 1), 25) * 1000`; every step
maps `NaN` to `NaN`. -/
def radiusMetersOf : JsNumber → JsNumber
  | .nan => JsNumber.nan
  | .fin r => JsNumber.fin (min (max r 1) 25 * 1000)

/-- The arguments with which the map route calls the adapter. -/
def mapFetchArgs (queryLat queryLng queryRadius : Option JsNumber)
    (location : Option ProfileLocation) : FetchArgs :=
  { lat := qLatOf queryLat location,
    lng := qLngOf queryLng location,
    radiusMeters := radiusMetersOf (radiusKmOf queryRadius) }

/-- The arguments with which the current route calls the adapter. -/
def currentFetchArgs (queryLat queryLng : Option JsNumber)
    (location : Option ProfileLocation) : FetchArgs :=
  { lat := qLatOf queryLat location,
    lng := qLngOf queryLng location,
    radiusMeters := JsNumber.fin 15000 }

/-- The route `GET /map`: resolve the parameters, call the adapter, and
handle what it did. -/
def mapRoute (network : FetchArgs → Except String HttpResponse)
    (queryLat queryLng queryRadius : Option JsNumber) (location : Option ProfileLocation)
    (sample : Sample) (now : String) : MapResult :=
  mapHandler (fetchOpenAqMeasurements network (mapFetchArgs queryLat queryLng queryRadius location))
    sample now

/-- The route `GET /current`. -/
def currentRoute (network : FetchArgs → Except String HttpResponse) (apiKey : Option String)
    (queryLat queryLng : Option JsNumber) (location : Option ProfileLocation)
    (health : Option HealthData) (sample : Sample) (now : String) : CurrentResponse :=
  currentHandler apiKey health
    (fetchOpenAqMeasurements network (currentFetchArgs queryLat queryLng location)) sample now

/-! ## The profile update of the simplified server -/

/-- A user object of the in-memory list `users` of `server/simple-server.js`:
its own properties in order, each value written as text.  The numeric `id`
is written in decimal, which is how a token spells it. -/
abbrev UserObject := List (String × String)

/-- The assignment `target[key] = value`: an existing property keeps its
position, a new one is added last. -/
def setProp (key value : String) : UserObject → UserObject
  | [] => [(key, value)]
  | (k, v) :: rest => if k = key then (k, value) :: rest else (k, v) :: setProp key value rest

/-- The call `Object.assign(target, source)`: every own property of the source
is assigned to the target. -/
def objectAssign (target source : UserObject) : UserObject :=
  source.foldl (fun t kv => setProp kv.1 kv.2 t) target

/-- What `PUT /api/user/profile` of the simplified server answers. -/
inductive ProfileStatus where
  | noToken : ProfileStatus
  | invalidToken : ProfileStatus
  | updated (user : UserObject) : ProfileStatus
  deriving DecidableEq

/-- The in-place update of the first user that `users.find` returns. -/
def updateFirst (userId : String) (body : UserObject) : List UserObject → List UserObject
  | [] => []
  | u :: rest =>
    if u.lookup "id" = some userId then objectAssign u body :: rest
    else u :: updateFirst userId body rest

/-- The handler of `PUT /api/user/profile` in `server/simple-server.js`, on the
list `users`.  The argument `userId` is what the two `replace` calls leave of
the `Authorization` header, `none` when the token is missing or empty; the body
is the parsed request body.  The result is the list `users` afterwards and the
answer.  The comparison `u.id == userId` is taken between the decimal spelling
of the stored id and the id of the token; other spellings of the same number,
which `==` accepts as well, find no user here. -/
def putProfile (users : List UserObject) (userId : Option String) (body : UserObject) :
    List UserObject × ProfileStatus :=
  match userId with
  | none => (users, ProfileStatus.noToken)
  | some uid =>
    match users.find? (fun u => decide (u.lookup "id" = some uid)) with
    | none => (users, ProfileStatus.invalidToken)
    | some u => (updateFirst uid body users, ProfileStatus.updated (objectAssign u body))

/-- The filter of `PUT /profile` in `server/routes/user.js`: only the keys of
`allowedUpdates` pass. -/
def filteredUpdates (updates : UserObject) : UserObject :=
  updates.filter (fun kv => ["name", "healthData", "preferences"].contains kv.1)

/-! ## Specification-side notions for the aggregation -/

/-- The keys of a list in the order of their first appearance, each once. -/
def firstOccurrences : List (ℚ × ℚ) → List (ℚ × ℚ)
  | [] => []
  | k :: ks => k :: (firstOccurrences ks).filter (fun x => decide (x ≠ k))

/-- The keys of the entries of `results` that are measurements carrying
coordinates, in input order. -/
def coordKeys : List JsonEntry → List (ℚ × ℚ)
  | [] => []
  | .null :: rest => coordKeys rest
  | .primitive :: rest => coordKeys rest
  | .meas m :: rest =>
    match m.coordinates with
    | none => coordKeys rest
    | some c => keyFor c :: coordKeys rest

/-- The measurement objects among the entries of `results`, in input order. -/
def measurementsOf : List JsonEntry → List Measurement
  | [] => []
  | .null :: rest => measurementsOf rest
  | .primitive :: rest => measurementsOf rest
  | .meas m :: rest => m :: measurementsOf rest

/-- The value of the first measurement whose parameter name is `name`, `null`
when there is none or when it has no value. -/
def firstValueOf (name : String) (ms : List Measurement) : Option ℚ :=
  (ms.find? (fun m => decide (m.parameter.key = name))).bind (fun m => m.value)

/-- Every entry of `byLoc` carries coordinates that give its key. -/
def KeysMatch (l : List ((ℚ × ℚ) × LocEntry)) : Prop :=
  ∀ kv ∈ l, keyFor kv.2.coords = kv.1

/-! ## Helper lemmas -/

theorem mem_ranges_iff (r : Range) :
    r ∈ ranges ↔
      r = { cLow := 0, cHigh := 12, iLow := 0, iHigh := 50, category := "Good" } ∨
      r = { cLow := 121 / 10, cHigh := 354 / 10, iLow := 51, iHigh := 100,
            category := "Moderate" } ∨
      r = { cLow := 355 / 10, cHigh := 554 / 10, iLow := 101, iHigh := 150,
            category := "Unhealthy for Sensitive Groups" } ∨
      r = { cLow := 555 / 10, cHigh := 1504 / 10, iLow := 151, iHigh := 200,
            category := "Unhealthy" } ∨
      r = { cLow := 1505 / 10, cHigh := 2504 / 10, iLow := 201, iHigh := 300,
            category := "Very Unhealthy" } ∨
      r = { cLow := 2505 / 10, cHigh := 5004 / 10, iLow := 301, iHigh := 500,
            category := "Hazardous" } := by
  simp [ranges]

theorem inRange_of_le {c : ℚ} {r : Range} (hlo : r.cLow ≤ c) (hhi : c ≤ r.cHigh) :
    inRange c r = true := by
  simp [inRange, hlo, hhi]

theorem inRange_of_gt {c : ℚ} {r : Range} (h : r.cHigh < c) : inRange c r = false := by
  simp [inRange, h]

theorem inRange_of_lt {c : ℚ} {r : Range} (h : c < r.cLow) : inRange c r = false := by
  simp [inRange, h]

/-- The first range that `find` meets is the only one that can match: a
range of the table that contains `c` is the one `find` returns. -/
theorem find_eq_of_mem (c : ℚ) (r : Range) (hr : r ∈ ranges)
    (hlo : r.cLow ≤ c) (hhi : c ≤ r.cHigh) :
    ranges.find? (inRange c) = some r := by
  rw [mem_ranges_iff] at hr
  rcases hr with rfl | rfl | rfl | rfl | rfl | rfl <;>
    simp only [] at hlo hhi <;>
    unfold ranges <;>
    repeat (first
      | (rewrite [List.find?_cons_of_pos]
         · with_reducible rfl
         · exact inRange_of_le hlo hhi)
      | (rewrite [List.find?_cons_of_neg]
         on_goal 2 => exact ne_true_of_eq_false (inRange_of_gt (by simp only []; linarith))))

/-- What `find` returns is a range of the table that contains `c`. -/
theorem find_some_spec {c : ℚ} {r : Range} (h : ranges.find? (inRange c) = some r) :
    r ∈ ranges ∧ r.cLow ≤ c ∧ c ≤ r.cHigh := by
  have hp := List.find?_some h
  have hm := List.mem_of_find?_eq_some h
  simp only [inRange, Bool.and_eq_true, decide_eq_true_eq] at hp
  exact ⟨hm, hp.1, hp.2⟩

/-- The function `find` returns `undefined` exactly when no range contains `c`. -/
theorem find_none_iff (c : ℚ) :
    ranges.find? (inRange c) = none ↔ ∀ r ∈ ranges, ¬ (r.cLow ≤ c ∧ c ≤ r.cHigh) := by
  rw [List.find?_eq_none]
  simp only [inRange, Bool.and_eq_true, decide_eq_true_eq]

/-- The result on a finite number that a table range contains. -/
theorem calculate_of_mem (c : ℚ) (r : Range) (hr : r ∈ ranges)
    (hlo : r.cLow ≤ c) (hhi : c ≤ r.cHigh) :
    calculateAqiFromPm25 (some (.fin c)) =
      { value := some (mathRound (interpolate r c)),
        category := r.category,
        description := descMap r.category } := by
  simp only [calculateAqiFromPm25, find_eq_of_mem c r hr hlo hhi]

/-- The result on a finite number that no table range contains. -/
theorem calculate_of_unmatched (c : ℚ)
    (h : ∀ r ∈ ranges, ¬ (r.cLow ≤ c ∧ c ≤ r.cHigh)) :
    calculateAqiFromPm25 (some (.fin c)) =
      { value := some 500, category := "Hazardous",
        description := some "PM2.5 extremely high" } := by
  simp only [calculateAqiFromPm25, (find_none_iff c).2 h]

/-- The function `Math.round` returns the nearest integer, ties upward. -/
theorem mathRound_nearest (x : ℚ) :
    (mathRound x : ℚ) - 1 / 2 ≤ x ∧ x < (mathRound x : ℚ) + 1 / 2 := by
  unfold mathRound
  have h1 := Int.floor_le (x + 1 / 2)
  have h2 := Int.lt_floor_add_one (x + 1 / 2)
  constructor <;> linarith

theorem mathRound_intCast (n : ℤ) : mathRound (n : ℚ) = n := by
  unfold mathRound
  rw [Int.floor_eq_iff]
  constructor <;> norm_num

/-- Rounding keeps a number inside integer bounds. -/
theorem mathRound_mem_Icc {x : ℚ} {a b : ℤ} (ha : (a : ℚ) ≤ x) (hb : x ≤ (b : ℚ)) :
    a ≤ mathRound x ∧ mathRound x ≤ b := by
  unfold mathRound
  constructor
  · rw [Int.le_floor]
    linarith
  · have : ⌊x + 1 / 2⌋ < b + 1 := by
      rw [Int.floor_lt]
      push_cast
      linarith
    omega

theorem mathRound_mono {x y : ℚ} (h : x ≤ y) : mathRound x ≤ mathRound y := by
  unfold mathRound
  exact Int.floor_mono (by linarith)

/-- Inside a range the interpolated number lies between the index bounds. -/
theorem interpolate_mem_Icc (c : ℚ) (r : Range) (hr : r ∈ ranges)
    (hlo : r.cLow ≤ c) (hhi : c ≤ r.cHigh) :
    (r.iLow : ℚ) ≤ interpolate r c ∧ interpolate r c ≤ (r.iHigh : ℚ) := by
  rw [mem_ranges_iff] at hr
  rcases hr with rfl | rfl | rfl | rfl | rfl | rfl <;>
    simp only [] at hlo hhi <;>
    simp only [interpolate] <;>
    norm_num <;>
    constructor <;> linarith

/-- Inside a range the index lies in the band of that range. -/
theorem value_mem_band (c : ℚ) (r : Range) (hr : r ∈ ranges)
    (hlo : r.cLow ≤ c) (hhi : c ≤ r.cHigh) :
    r.iLow ≤ mathRound (interpolate r c) ∧ mathRound (interpolate r c) ≤ r.iHigh :=
  mathRound_mem_Icc (interpolate_mem_Icc c r hr hlo hhi).1 (interpolate_mem_Icc c r hr hlo hhi).2

theorem mathRound_eq_iff (x : ℚ) (n : ℤ) :
    mathRound x = n ↔ (n : ℚ) - 1 / 2 ≤ x ∧ x < (n : ℚ) + 1 / 2 := by
  unfold mathRound
  rw [Int.floor_eq_iff]
  constructor <;> rintro ⟨h1, h2⟩ <;> constructor <;> linarith

theorem range_nondegenerate (r : Range) (hr : r ∈ ranges) : r.cLow < r.cHigh := by
  rw [mem_ranges_iff] at hr
  rcases hr with rfl | rfl | rfl | rfl | rfl | rfl <;> norm_num

theorem interpolate_cLow (r : Range) : interpolate r r.cLow = (r.iLow : ℚ) := by
  simp [interpolate]

theorem interpolate_cHigh (r : Range) (hr : r ∈ ranges) :
    interpolate r r.cHigh = (r.iHigh : ℚ) := by
  have hd : r.cHigh - r.cLow ≠ 0 := by
    have := range_nondegenerate r hr
    intro h
    linarith
  unfold interpolate
  rw [div_mul_cancel₀ _ hd]
  push_cast
  ring

/-- No range of the table contains a number strictly between 12.0 and 12.1. -/
theorem unmatched_in_first_gap (c : ℚ) (h1 : 12 < c) (h2 : c < 121 / 10) :
    ∀ r ∈ ranges, ¬ (r.cLow ≤ c ∧ c ≤ r.cHigh) := by
  intro r hr
  rw [mem_ranges_iff] at hr
  rcases hr with rfl | rfl | rfl | rfl | rfl | rfl <;>
    simp only [] <;> rintro ⟨h3, h4⟩ <;> linarith

/-- No range of the table contains a number above 500.4. -/
theorem unmatched_above (c : ℚ) (h : 5004 / 10 < c) :
    ∀ r ∈ ranges, ¬ (r.cLow ≤ c ∧ c ≤ r.cHigh) := by
  intro r hr
  rw [mem_ranges_iff] at hr
  rcases hr with rfl | rfl | rfl | rfl | rfl | rfl <;>
    simp only [] <;> rintro ⟨h3, h4⟩ <;> linarith

/-- No range of the table contains a negative number. -/
theorem unmatched_below (c : ℚ) (h : c < 0) :
    ∀ r ∈ ranges, ¬ (r.cLow ≤ c ∧ c ≤ r.cHigh) := by
  intro r hr
  rw [mem_ranges_iff] at hr
  rcases hr with rfl | rfl | rfl | rfl | rfl | rfl <;>
    simp only [] <;> rintro ⟨h3, h4⟩ <;> linarith

/-- On the band of a range `getAQICategory` gives the label of that range. -/
theorem getAQICategory_of_band (r : Range) (hr : r ∈ ranges) (v : ℤ)
    (hlo : r.iLow ≤ v) (hhi : v ≤ r.iHigh) : getAQICategory v = r.category := by
  rw [mem_ranges_iff] at hr
  rcases hr with rfl | rfl | rfl | rfl | rfl | rfl <;>
    simp only [] at hlo hhi <;>
    simp only [getAQICategory] <;>
    (repeat' split) <;>
    first
      | rfl
      | omega

theorem severityRank_getAQICategory_mono {v w : ℤ} (h : v ≤ w) :
    severityRank (getAQICategory v) ≤ severityRank (getAQICategory w) := by
  simp only [getAQICategory]
  repeat' split
  all_goals first
    | omega
    | simp [severityRank]

theorem band_bounds (r : Range) (hr : r ∈ ranges) : 0 ≤ r.iLow ∧ r.iHigh ≤ 500 := by
  rw [mem_ranges_iff] at hr
  rcases hr with rfl | rfl | rfl | rfl | rfl | rfl <;> simp only [] <;> omega

/-- Every finite input takes one of the two numeric exits of the function:
the unmatched fallback, or the interpolation in the range that `find` returns. -/
theorem calculate_cases (c : ℚ) :
    ((∀ r ∈ ranges, ¬ (r.cLow ≤ c ∧ c ≤ r.cHigh)) ∧
      calculateAqiFromPm25 (some (.fin c)) =
        { value := some 500, category := "Hazardous",
          description := some "PM2.5 extremely high" }) ∨
    (∃ r ∈ ranges, r.cLow ≤ c ∧ c ≤ r.cHigh ∧
      calculateAqiFromPm25 (some (.fin c)) =
        { value := some (mathRound (interpolate r c)),
          category := r.category,
          description := descMap r.category }) := by
  cases h : ranges.find? (inRange c) with
  | none =>
    left
    exact ⟨(find_none_iff c).1 h, calculate_of_unmatched c ((find_none_iff c).1 h)⟩
  | some r =>
    right
    obtain ⟨hm, hlo, hhi⟩ := find_some_spec h
    exact ⟨r, hm, hlo, hhi, calculate_of_mem c r hm hlo hhi⟩

/-! ## The claims about `calculateAqiFromPm25` -/

/-- C1: for every concentration `c` inside a breakpoint range of the table
(`cLow ≤ c ≤ cHigh`), `calculateAqiFromPm25 c` has the value
`round ((iHigh - iLow) / (cHigh - cLow) * (c - cLow) + iLow)` of that range, the
category label of that range and the description string that `descMap` fixes for
that category (which is defined); `round` is the nearest integer, ties upward. -/
theorem calculateAqiFromPm25_interpolates (c : ℚ) (r : Range) (hr : r ∈ ranges)
    (hlo : r.cLow ≤ c) (hhi : c ≤ r.cHigh) :
    calculateAqiFromPm25 (some (.fin c)) =
        { value := some (mathRound
            (((r.iHigh - r.iLow : ℤ) : ℚ) / (r.cHigh - r.cLow) * (c - r.cLow) + (r.iLow : ℚ))),
          category := r.category,
          description := descMap r.category } ∧
      (descMap r.category).isSome = true ∧
      ∀ y : ℚ, (mathRound y : ℚ) - 1 / 2 ≤ y ∧ y < (mathRound y : ℚ) + 1 / 2 := by
  refine ⟨calculate_of_mem c r hr hlo hhi, ?_, mathRound_nearest⟩
  rw [mem_ranges_iff] at hr
  rcases hr with rfl | rfl | rfl | rfl | rfl | rfl <;> simp [descMap]

theorem calculateAqiFromPm25_interpolates_witness :
    calculateAqiFromPm25 (some (.fin 20)) =
        { value := some (mathRound
            (((100 - 51 : ℤ) : ℚ) / (354 / 10 - 121 / 10) * (20 - 121 / 10) + ((51 : ℤ) : ℚ))),
          category := "Moderate",
          description := descMap "Moderate" } ∧
      (descMap "Moderate").isSome = true ∧
      ∀ y : ℚ, (mathRound y : ℚ) - 1 / 2 ≤ y ∧ y < (mathRound y : ℚ) + 1 / 2 :=
  calculateAqiFromPm25_interpolates 20
    { cLow := 121 / 10, cHigh := 354 / 10, iLow := 51, iHigh := 100, category := "Moderate" }
    (by simp [ranges]) (by norm_num) (by norm_num)

/-- C2: the value of `calculateAqiFromPm25 x` is `null` if and only if `x` is
`null` or `NaN`; in that case the category is "Unknown", and for every numeric
`x` the value is an integer.  The function is total, so no error is raised. -/
theorem calculateAqiFromPm25_value_null_iff (x : Option JsNumber) :
    ((calculateAqiFromPm25 x).value = none ↔ (x = none ∨ x = some JsNumber.nan)) ∧
      ((x = none ∨ x = some JsNumber.nan) → (calculateAqiFromPm25 x).category = "Unknown") ∧
      (∀ c : ℚ, x = some (JsNumber.fin c) →
        ∃ v : ℤ, (calculateAqiFromPm25 x).value = some v) := by
  rcases x with _ | _ | c
  · simp [calculateAqiFromPm25]
  · simp [calculateAqiFromPm25]
  · have hv : ∃ v : ℤ, (calculateAqiFromPm25 (some (JsNumber.fin c))).value = some v := by
      rcases calculate_cases c with ⟨_, h⟩ | ⟨r, _, _, _, h⟩ <;> rw [h] <;> exact ⟨_, rfl⟩
    obtain ⟨v, hv⟩ := hv
    refine ⟨?_, ?_, fun _ _ => ⟨v, hv⟩⟩
    · simp [hv]
    · simp

theorem calculateAqiFromPm25_value_null_iff_witness :
    (calculateAqiFromPm25 none).category = "Unknown" ∧
      ∃ v : ℤ, (calculateAqiFromPm25 (some (JsNumber.fin 20))).value = some v :=
  ⟨(calculateAqiFromPm25_value_null_iff none).2.1 (Or.inl rfl),
   (calculateAqiFromPm25_value_null_iff (some (JsNumber.fin 20))).2.2 20 rfl⟩

/-- C3, as the spec states it, fails: on `null` the description is not "No data". -/
theorem calculateAqiFromPm25_null_description_counterexample :
    calculateAqiFromPm25 none ≠
      { value := none, category := "Unknown", description := some "No data" } := by
  simp [calculateAqiFromPm25]

/-- C3 (amended): for a `null` or `NaN` input `calculateAqiFromPm25` returns exactly
the record with value `null`, category "Unknown" and description "No PM2.5 data". -/
theorem calculateAqiFromPm25_null (x : Option JsNumber)
    (hx : x = none ∨ x = some JsNumber.nan) :
    calculateAqiFromPm25 x =
      { value := none, category := "Unknown", description := some "No PM2.5 data" } := by
  rcases hx with rfl | rfl <;> rfl

theorem calculateAqiFromPm25_null_witness :
    calculateAqiFromPm25 (some JsNumber.nan) =
      { value := none, category := "Unknown", description := some "No PM2.5 data" } :=
  calculateAqiFromPm25_null (some JsNumber.nan) (Or.inr rfl)

/-- C4: for every concentration `c` with `0 ≤ c ≤ 500.4` the value of
`calculateAqiFromPm25 c` is an integer `v` with `0 ≤ v ≤ 500`. -/
theorem calculateAqiFromPm25_value_bounds (c : ℚ) (h0 : 0 ≤ c) (h1 : c ≤ 5004 / 10) :
    ∃ v : ℤ, (calculateAqiFromPm25 (some (JsNumber.fin c))).value = some v ∧
      0 ≤ v ∧ v ≤ 500 := by
  rcases calculate_cases c with ⟨_, h⟩ | ⟨r, hr, hlo, hhi, h⟩
  · exact ⟨500, by rw [h], by norm_num, by norm_num⟩
  · have hb := value_mem_band c r hr hlo hhi
    have hr' := band_bounds r hr
    exact ⟨_, by rw [h], by omega, by omega⟩

theorem calculateAqiFromPm25_value_bounds_witness :
    (0 : ℚ) ≤ 20 ∧ (20 : ℚ) ≤ 5004 / 10 ∧
      ∃ v : ℤ, (calculateAqiFromPm25 (some (JsNumber.fin 20))).value = some v ∧
        0 ≤ v ∧ v ≤ 500 :=
  ⟨by norm_num, by norm_num, calculateAqiFromPm25_value_bounds 20 (by norm_num) (by norm_num)⟩

/-- C5, on the code: 12.05 lies strictly between the first two ranges of the
table, so `find` matches nothing and the value is the fallback 500, while the
larger concentration 13 gets the value 53; the function is therefore not
monotonically non-decreasing on `[0, 500.4]`. -/
theorem calculateAqiFromPm25_gap_not_monotone :
    (0 : ℚ) ≤ 1205 / 100 ∧ (1205 / 100 : ℚ) ≤ 13 ∧ (13 : ℚ) ≤ 5004 / 10 ∧
      (calculateAqiFromPm25 (some (JsNumber.fin (1205 / 100)))).value = some 500 ∧
      (calculateAqiFromPm25 (some (JsNumber.fin 13))).value = some 53 := by
  refine ⟨by norm_num, by norm_num, by norm_num, ?_, ?_⟩
  · rw [calculate_of_unmatched _ (unmatched_in_first_gap _ (by norm_num) (by norm_num))]
  · rw [calculate_of_mem 13
      { cLow := 121 / 10, cHigh := 354 / 10, iLow := 51, iHigh := 100, category := "Moderate" }
      (by simp [ranges]) (by norm_num) (by norm_num)]
    simp only [Option.some.injEq]
    rw [mathRound_eq_iff]
    norm_num [interpolate]

/-- C6, on the code: the concentration 12.05 lies in `[0, 500.4]` and no range
of the table contains it, so the ranges are not contiguous. -/
theorem ranges_gap_unmatched :
    (0 : ℚ) ≤ 1205 / 100 ∧ (1205 / 100 : ℚ) ≤ 5004 / 10 ∧
      (ranges.filter (inRange (1205 / 100))).length = 0 ∧
      ranges.find? (inRange (1205 / 100)) = none := by
  have h := unmatched_in_first_gap (1205 / 100) (by norm_num) (by norm_num)
  refine ⟨by norm_num, by norm_num, ?_, (find_none_iff _).2 h⟩
  rw [List.length_eq_zero, List.filter_eq_nil_iff]
  intro r hr
  simpa only [inRange, Bool.and_eq_true, decide_eq_true_eq] using h r hr

/-- C7: breakpoint edges map exactly as tabulated.  For each range of the table
the lower edge gets `(iLow, category)` and the upper edge `(iHigh, category)`;
in particular 12.0 is Good, 12.1 is Moderate, 35.4 gives (100, Moderate) and 35.5
gives (101, Unhealthy for Sensitive Groups). -/
theorem calculateAqiFromPm25_edges :
    (∀ r ∈ ranges,
      (calculateAqiFromPm25 (some (JsNumber.fin r.cLow))).value = some r.iLow ∧
      (calculateAqiFromPm25 (some (JsNumber.fin r.cLow))).category = r.category ∧
      (calculateAqiFromPm25 (some (JsNumber.fin r.cHigh))).value = some r.iHigh ∧
      (calculateAqiFromPm25 (some (JsNumber.fin r.cHigh))).category = r.category) ∧
    (calculateAqiFromPm25 (some (JsNumber.fin 12))).category = "Good" ∧
    (calculateAqiFromPm25 (some (JsNumber.fin (121 / 10)))).category = "Moderate" ∧
    (calculateAqiFromPm25 (some (JsNumber.fin (354 / 10)))).value = some 100 ∧
    (calculateAqiFromPm25 (some (JsNumber.fin (354 / 10)))).category = "Moderate" ∧
    (calculateAqiFromPm25 (some (JsNumber.fin (355 / 10)))).value = some 101 ∧
    (calculateAqiFromPm25 (some (JsNumber.fin (355 / 10)))).category =
      "Unhealthy for Sensitive Groups" := by
  have key : ∀ r ∈ ranges,
      (calculateAqiFromPm25 (some (JsNumber.fin r.cLow))).value = some r.iLow ∧
      (calculateAqiFromPm25 (some (JsNumber.fin r.cLow))).category = r.category ∧
      (calculateAqiFromPm25 (some (JsNumber.fin r.cHigh))).value = some r.iHigh ∧
      (calculateAqiFromPm25 (some (JsNumber.fin r.cHigh))).category = r.category := by
    intro r hr
    have hlt := range_nondegenerate r hr
    rw [calculate_of_mem r.cLow r hr le_rfl hlt.le, calculate_of_mem r.cHigh r hr hlt.le le_rfl,
      interpolate_cLow, interpolate_cHigh r hr, mathRound_intCast, mathRound_intCast]
    exact ⟨rfl, rfl, rfl, rfl⟩
  have h1 := key { cLow := 0, cHigh := 12, iLow := 0, iHigh := 50, category := "Good" }
    (by simp [ranges])
  have h2 := key
    { cLow := 121 / 10, cHigh := 354 / 10, iLow := 51, iHigh := 100, category := "Moderate" }
    (by simp [ranges])
  have h3 := key
    { cLow := 355 / 10, cHigh := 554 / 10, iLow := 101, iHigh := 150,
      category := "Unhealthy for Sensitive Groups" }
    (by simp [ranges])
  exact ⟨key, h1.2.2.2, h2.2.1, h2.2.2.1, h2.2.2.2, h3.1, h3.2.1⟩

/-- C8: for every concentration `c > 500.4`, and for every non-negative `c` that
no range of the table matches, `calculateAqiFromPm25 c` has value 500 and
category "Hazardous"; the function is total, so no error is raised. -/
theorem calculateAqiFromPm25_unmatched_clamped :
    (∀ c : ℚ, 5004 / 10 < c →
      (calculateAqiFromPm25 (some (JsNumber.fin c))).value = some 500 ∧
      (calculateAqiFromPm25 (some (JsNumber.fin c))).category = "Hazardous") ∧
    (∀ c : ℚ, 0 ≤ c → (∀ r ∈ ranges, ¬ (r.cLow ≤ c ∧ c ≤ r.cHigh)) →
      (calculateAqiFromPm25 (some (JsNumber.fin c))).value = some 500 ∧
      (calculateAqiFromPm25 (some (JsNumber.fin c))).category = "Hazardous") := by
  constructor
  · intro c hc
    rw [calculate_of_unmatched c (unmatched_above c hc)]
    exact ⟨rfl, rfl⟩
  · intro c _ hc
    rw [calculate_of_unmatched c hc]
    exact ⟨rfl, rfl⟩

theorem calculateAqiFromPm25_unmatched_clamped_witness :
    ((5004 / 10 : ℚ) < 501 ∧
      (calculateAqiFromPm25 (some (JsNumber.fin 501))).value = some 500 ∧
      (calculateAqiFromPm25 (some (JsNumber.fin 501))).category = "Hazardous") ∧
    ((0 : ℚ) ≤ 1205 / 100 ∧ (∀ r ∈ ranges, ¬ (r.cLow ≤ 1205 / 100 ∧ 1205 / 100 ≤ r.cHigh)) ∧
      (calculateAqiFromPm25 (some (JsNumber.fin (1205 / 100)))).value = some 500 ∧
      (calculateAqiFromPm25 (some (JsNumber.fin (1205 / 100)))).category = "Hazardous") :=
  ⟨⟨by norm_num, calculateAqiFromPm25_unmatched_clamped.1 501 (by norm_num)⟩,
   ⟨by norm_num, unmatched_in_first_gap _ (by norm_num) (by norm_num),
    calculateAqiFromPm25_unmatched_clamped.2 (1205 / 100) (by norm_num)
      (unmatched_in_first_gap _ (by norm_num) (by norm_num))⟩⟩

/-- C9, as the spec states it, fails: the negative concentration -1 does not get
the result at the lowest boundary 0 (value 0, Good) but the fallback value 500
with category "Hazardous". -/
theorem calculateAqiFromPm25_negative_counterexample :
    (-1 : ℚ) < 0 ∧
      (calculateAqiFromPm25 (some (JsNumber.fin (-1)))).value = some 500 ∧
      (calculateAqiFromPm25 (some (JsNumber.fin (-1)))).category = "Hazardous" ∧
      (calculateAqiFromPm25 (some (JsNumber.fin 0))).value = some 0 ∧
      (calculateAqiFromPm25 (some (JsNumber.fin 0))).category = "Good" ∧
      calculateAqiFromPm25 (some (JsNumber.fin (-1))) ≠
        calculateAqiFromPm25 (some (JsNumber.fin 0)) := by
  have hneg := calculate_of_unmatched (-1) (unmatched_below (-1) (by norm_num))
  have hzero := calculate_of_mem 0
    { cLow := 0, cHigh := 12, iLow := 0, iHigh := 50, category := "Good" }
    (by simp [ranges]) (by norm_num) (by norm_num)
  have hint : interpolate
      { cLow := 0, cHigh := 12, iLow := 0, iHigh := 50, category := "Good" } 0 = ((0 : ℤ) : ℚ) := by
    norm_num [interpolate]
  rw [hint, mathRound_intCast] at hzero
  rw [hneg, hzero]
  refine ⟨by norm_num, rfl, rfl, rfl, rfl, ?_⟩
  intro h
  have hv := congrArg AqiResult.value h
  simp at hv

/-- C9 (amended): concentrations above the table are clamped to the top of the
scale.  For every `c > 500.4` the value and the category of
`calculateAqiFromPm25 c` are those of the result at the highest boundary 500.4,
that is 500 and "Hazardous"; the function is total, so it never throws. -/
theorem calculateAqiFromPm25_above_table (c : ℚ) (hc : 5004 / 10 < c) :
    (calculateAqiFromPm25 (some (JsNumber.fin c))).value =
        (calculateAqiFromPm25 (some (JsNumber.fin (5004 / 10)))).value ∧
      (calculateAqiFromPm25 (some (JsNumber.fin c))).category =
        (calculateAqiFromPm25 (some (JsNumber.fin (5004 / 10)))).category ∧
      (calculateAqiFromPm25 (some (JsNumber.fin (5004 / 10)))).value = some 500 ∧
      (calculateAqiFromPm25 (some (JsNumber.fin (5004 / 10)))).category = "Hazardous" := by
  have hr : (⟨2505 / 10, 5004 / 10, 301, 500, "Hazardous"⟩ : Range) ∈ ranges := by
    simp [ranges]
  have htop := calculate_of_mem (5004 / 10) _ hr (by norm_num) (by norm_num)
  have hint := interpolate_cHigh _ hr
  simp only [] at hint
  rw [hint, mathRound_intCast] at htop
  rw [calculate_of_unmatched c (unmatched_above c hc), htop]
  exact ⟨rfl, rfl, rfl, rfl⟩

theorem calculateAqiFromPm25_above_table_witness :
    (5004 / 10 : ℚ) < 600 ∧
      (calculateAqiFromPm25 (some (JsNumber.fin 600))).value =
        (calculateAqiFromPm25 (some (JsNumber.fin (5004 / 10)))).value ∧
      (calculateAqiFromPm25 (some (JsNumber.fin 600))).category =
        (calculateAqiFromPm25 (some (JsNumber.fin (5004 / 10)))).category ∧
      (calculateAqiFromPm25 (some (JsNumber.fin (5004 / 10)))).value = some 500 ∧
      (calculateAqiFromPm25 (some (JsNumber.fin (5004 / 10)))).category = "Hazardous" :=
  ⟨by norm_num, calculateAqiFromPm25_above_table 600 (by norm_num)⟩

/-- C10: in every non-null result of `calculateAqiFromPm25` the category is the
six-band label of the value, the one `getAQICategory` computes; so two inputs
with the same value get the same category, and a larger value never gets a less
severe category. -/
theorem calculateAqiFromPm25_category_of_value :
    (∀ (x : Option JsNumber) (v : ℤ), (calculateAqiFromPm25 x).value = some v →
      (calculateAqiFromPm25 x).category = getAQICategory v) ∧
    (∀ (x y : Option JsNumber) (v : ℤ), (calculateAqiFromPm25 x).value = some v →
      (calculateAqiFromPm25 y).value = some v →
      (calculateAqiFromPm25 x).category = (calculateAqiFromPm25 y).category) ∧
    (∀ (x y : Option JsNumber) (v w : ℤ), (calculateAqiFromPm25 x).value = some v →
      (calculateAqiFromPm25 y).value = some w → v ≤ w →
      severityRank (calculateAqiFromPm25 x).category ≤
        severityRank (calculateAqiFromPm25 y).category) := by
  have key : ∀ (x : Option JsNumber) (v : ℤ), (calculateAqiFromPm25 x).value = some v →
      (calculateAqiFromPm25 x).category = getAQICategory v := by
    intro x v hv
    rcases x with _ | _ | c
    · simp [calculateAqiFromPm25] at hv
    · simp [calculateAqiFromPm25] at hv
    · rcases calculate_cases c with ⟨_, h⟩ | ⟨r, hr, hlo, hhi, h⟩
      · rw [h] at hv ⊢
        simp only [Option.some.injEq] at hv
        subst hv
        simp [getAQICategory]
      · rw [h] at hv ⊢
        simp only [Option.some.injEq] at hv
        subst hv
        have hb := value_mem_band c r hr hlo hhi
        exact (getAQICategory_of_band r hr _ hb.1 hb.2).symm
  refine ⟨key, ?_, ?_⟩
  · intro x y v hx hy
    rw [key x v hx, key y v hy]
  · intro x y v w hx hy hvw
    rw [key x v hx, key y w hy]
    exact severityRank_getAQICategory_mono hvw

theorem calculateAqiFromPm25_category_of_value_witness :
    (calculateAqiFromPm25 (some (JsNumber.fin 600))).value = some 500 ∧
      (calculateAqiFromPm25 (some (JsNumber.fin 600))).category = getAQICategory 500 :=
  have hv : (calculateAqiFromPm25 (some (JsNumber.fin 600))).value = some 500 := by
    rw [calculate_of_unmatched 600 (unmatched_above 600 (by norm_num))]
  ⟨hv, calculateAqiFromPm25_category_of_value.1 (some (JsNumber.fin 600)) 500 hv⟩

/-! ## The map route and the current-reading route -/

/-- C11: `colorForAqi` maps every AQI value to the colour of its band, with the
band edges 50, 100, 150, 200 and 300 belonging to the lower band; in particular
50 is #00E400, 51 is #FFFF00 and 301 is #7E0023. -/
theorem colorForAqi_bands (a : ℤ) :
    (a ≤ 50 → colorForAqi a = "#00E400") ∧
    (50 < a → a ≤ 100 → colorForAqi a = "#FFFF00") ∧
    (100 < a → a ≤ 150 → colorForAqi a = "#FF8C00") ∧
    (150 < a → a ≤ 200 → colorForAqi a = "#FF0000") ∧
    (200 < a → a ≤ 300 → colorForAqi a = "#8F3F97") ∧
    (300 < a → colorForAqi a = "#7E0023") ∧
    colorForAqi 50 = "#00E400" ∧ colorForAqi 51 = "#FFFF00" ∧
    colorForAqi 301 = "#7E0023" := by
  refine ⟨?_, ?_, ?_, ?_, ?_, ?_, by decide, by decide, by decide⟩
  · intro h
    simp only [colorForAqi, if_pos h]
  · intro h1 h2
    simp only [colorForAqi, if_neg (not_le.2 h1), if_pos h2]
  · intro h1 h2
    have hA : ¬ a ≤ 50 := by omega
    simp only [colorForAqi, if_neg hA, if_neg (not_le.2 h1), if_pos h2]
  · intro h1 h2
    have hA : ¬ a ≤ 50 := by omega
    have hB : ¬ a ≤ 100 := by omega
    simp only [colorForAqi, if_neg hA, if_neg hB, if_neg (not_le.2 h1), if_pos h2]
  · intro h1 h2
    have hA : ¬ a ≤ 50 := by omega
    have hB : ¬ a ≤ 100 := by omega
    have hC : ¬ a ≤ 150 := by omega
    simp only [colorForAqi, if_neg hA, if_neg hB, if_neg hC, if_neg (not_le.2 h1), if_pos h2]
  · intro h1
    have hA : ¬ a ≤ 50 := by omega
    have hB : ¬ a ≤ 100 := by omega
    have hC : ¬ a ≤ 150 := by omega
    have hD : ¬ a ≤ 200 := by omega
    simp only [colorForAqi, if_neg hA, if_neg hB, if_neg hC, if_neg hD,
      if_neg (not_le.2 h1)]

theorem colorForAqi_bands_witness :
    (100 : ℤ) < 120 ∧ (120 : ℤ) ≤ 150 ∧ colorForAqi 120 = "#FF8C00" :=
  ⟨by decide, by decide, (colorForAqi_bands 120).2.2.1 (by decide) (by decide)⟩

/-- C12, on the code: two measurements of pm25 at the same coordinates, the
first with value 10 and the second with value 20.  The grouping loop assigns
`entry[p] = m` for each of them, so the point carries the value 20 of the
measurement that comes last, not the value 10 of the first. -/
theorem groupByLocation_last_seen_wins :
    (groupByLocation
      [JsonEntry.meas ⟨Parameter.str "pm25", some 10, some ⟨1, 2⟩, none⟩,
       JsonEntry.meas ⟨Parameter.str "pm25", some 20, some ⟨1, 2⟩, none⟩]).map
        (fun byLoc => (pointsOf byLoc).map (fun p => p.pm25)) = some [some 20] := by
  simp [groupByLocation, groupFrom, groupStep, setEntry, keyFor, pointsOf, pointOf,
    LocEntry.get, List.lookup, Parameter.key]

/-! ### The grouping loop -/

theorem mem_firstOccurrences (k : ℚ × ℚ) (l : List (ℚ × ℚ)) :
    k ∈ firstOccurrences l ↔ k ∈ l := by
  induction l with
  | nil => simp [firstOccurrences]
  | cons a l ih =>
    simp only [firstOccurrences, List.mem_cons, List.mem_filter, decide_eq_true_eq, ih]
    constructor
    · rintro (h | ⟨h, _⟩)
      · exact Or.inl h
      · exact Or.inr h
    · rintro (h | h)
      · exact Or.inl h
      · by_cases hk : k = a
        · exact Or.inl hk
        · exact Or.inr ⟨h, hk⟩

theorem nodup_firstOccurrences (l : List (ℚ × ℚ)) : (firstOccurrences l).Nodup := by
  induction l with
  | nil => simp [firstOccurrences]
  | cons a l ih =>
    simp only [firstOccurrences, List.nodup_cons, List.mem_filter, decide_eq_true_eq]
    exact ⟨fun h => h.2 rfl, ih.filter _⟩

theorem mem_coordKeys (k : ℚ × ℚ) (es : List JsonEntry) :
    k ∈ coordKeys es ↔
      ∃ m c, JsonEntry.meas m ∈ es ∧ m.coordinates = some c ∧ keyFor c = k := by
  induction es with
  | nil => simp [coordKeys]
  | cons e es ih =>
    cases e with
    | null =>
      simp only [coordKeys, ih, List.mem_cons]
      constructor
      · rintro ⟨m, c, h1, h2, h3⟩
        exact ⟨m, c, Or.inr h1, h2, h3⟩
      · rintro ⟨m, c, h1 | h1, h2, h3⟩
        · cases h1
        · exact ⟨m, c, h1, h2, h3⟩
    | primitive =>
      simp only [coordKeys, ih, List.mem_cons]
      constructor
      · rintro ⟨m, c, h1, h2, h3⟩
        exact ⟨m, c, Or.inr h1, h2, h3⟩
      · rintro ⟨m, c, h1 | h1, h2, h3⟩
        · cases h1
        · exact ⟨m, c, h1, h2, h3⟩
    | meas m0 =>
      cases hc : m0.coordinates with
      | none =>
        simp only [coordKeys, hc, ih, List.mem_cons]
        constructor
        · rintro ⟨m, c, h1, h2, h3⟩
          exact ⟨m, c, Or.inr h1, h2, h3⟩
        · rintro ⟨m, c, h1 | h1, h2, h3⟩
          · cases h1
            rw [hc] at h2
            cases h2
          · exact ⟨m, c, h1, h2, h3⟩
      | some c0 =>
        simp only [coordKeys, hc, ih, List.mem_cons]
        constructor
        · rintro (h | ⟨m, c, h1, h2, h3⟩)
          · exact ⟨m0, c0, Or.inl rfl, hc, h.symm⟩
          · exact ⟨m, c, Or.inr h1, h2, h3⟩
        · rintro ⟨m, c, h1 | h1, h2, h3⟩
          · cases h1
            rw [hc] at h2
            cases h2
            exact Or.inl h3.symm
          · exact Or.inr ⟨m, c, h1, h2, h3⟩

/-- The keys of `byLoc` after one assignment: an existing key keeps the key
list, a new key is appended. -/
theorem setEntry_keys (key : ℚ × ℚ) (m : Measurement) (c : Coordinates)
    (l : List ((ℚ × ℚ) × LocEntry)) :
    (setEntry key m c l).map Prod.fst =
      if key ∈ l.map Prod.fst then l.map Prod.fst else l.map Prod.fst ++ [key] := by
  induction l with
  | nil => simp [setEntry]
  | cons kv l ih =>
    obtain ⟨k, e⟩ := kv
    by_cases hk : k = key
    · subst hk
      simp [setEntry]
    · have hk2 : ¬ key = k := fun h => hk h.symm
      simp only [setEntry, if_neg hk, List.map_cons, ih, List.mem_cons, hk2, false_or]
      split <;> simp

theorem setEntry_keysMatch (m : Measurement) (c : Coordinates)
    (l : List ((ℚ × ℚ) × LocEntry)) (h : KeysMatch l) :
    KeysMatch (setEntry (keyFor c) m c l) := by
  induction l with
  | nil =>
    intro kv hkv
    simp only [setEntry, List.mem_singleton] at hkv
    subst hkv
    rfl
  | cons kv0 l ih =>
    obtain ⟨k, e⟩ := kv0
    have hl : KeysMatch l := fun kv hkv => h kv (List.mem_cons_of_mem _ hkv)
    intro kv hkv
    by_cases hk : k = keyFor c
    · simp only [setEntry, if_pos hk, List.mem_cons] at hkv
      rcases hkv with rfl | hkv
      · exact hk.symm
      · exact hl kv hkv
    · simp only [setEntry, if_neg hk, List.mem_cons] at hkv
      rcases hkv with rfl | hkv
      · exact h _ (List.mem_cons_self _ _)
      · exact ih hl kv hkv

theorem filter_not_mem_append_singleton (acc l : List (ℚ × ℚ)) (k : ℚ × ℚ) :
    l.filter (fun x => decide (x ∉ acc ++ [k])) =
      (l.filter (fun x => decide (x ≠ k))).filter (fun x => decide (x ∉ acc)) := by
  rw [List.filter_filter]
  congr 1
  funext x
  simp only [List.mem_append, List.mem_singleton, not_or, ne_eq, Bool.decide_and,
    Bool.and_comm]

theorem filter_ne_of_mem (acc l : List (ℚ × ℚ)) (k : ℚ × ℚ) (hk : k ∈ acc) :
    (l.filter (fun x => decide (x ≠ k))).filter (fun x => decide (x ∉ acc)) =
      l.filter (fun x => decide (x ∉ acc)) := by
  rw [List.filter_filter]
  congr 1
  funext x
  by_cases hx : x = k
  · subst hx
    simp [hk]
  · simp [hx]

/-- The grouping loop on a list without a `null` entry: it completes, the keys
of the result are the keys it started from followed by the new keys in the
order of their first appearance, and every entry matches its key. -/
theorem groupFrom_spec (es : List JsonEntry) :
    ∀ acc : List ((ℚ × ℚ) × LocEntry), JsonEntry.null ∉ es →
      ∃ byLoc, groupFrom acc es = some byLoc ∧
        byLoc.map Prod.fst =
          acc.map Prod.fst ++
            (firstOccurrences (coordKeys es)).filter
              (fun k => decide (k ∉ acc.map Prod.fst)) ∧
        (KeysMatch acc → KeysMatch byLoc) := by
  induction es with
  | nil =>
    intro acc _
    exact ⟨acc, rfl, by simp [coordKeys, firstOccurrences], id⟩
  | cons e es ih =>
    intro acc hnull
    have hrest : JsonEntry.null ∉ es := fun h => hnull (List.mem_cons_of_mem _ h)
    cases e with
    | null => exact absurd (List.mem_cons_self _ _) hnull
    | primitive =>
      obtain ⟨byLoc, h1, h2, h3⟩ := ih acc hrest
      exact ⟨byLoc, by simpa only [groupFrom] using h1, by simpa only [coordKeys] using h2, h3⟩
    | meas m =>
      cases hc : m.coordinates with
      | none =>
        obtain ⟨byLoc, h1, h2, h3⟩ := ih acc hrest
        refine ⟨byLoc, ?_, ?_, h3⟩
        · simpa only [groupFrom, groupStep, hc] using h1
        · simpa only [coordKeys, hc] using h2
      | some c =>
        obtain ⟨byLoc, h1, h2, h3⟩ := ih (setEntry (keyFor c) m c acc) hrest
        refine ⟨byLoc, ?_, ?_, fun hacc => h3 (setEntry_keysMatch m c acc hacc)⟩
        · simpa only [groupFrom, groupStep, hc] using h1
        · rw [h2, setEntry_keys]
          simp only [coordKeys, hc, firstOccurrences]
          by_cases hk : keyFor c ∈ acc.map Prod.fst
          · rw [if_pos hk, List.filter_cons_of_neg (by simpa using hk),
              filter_ne_of_mem _ _ _ hk]
          · rw [if_neg hk, List.filter_cons_of_pos (by simpa using hk),
              filter_not_mem_append_singleton, List.append_assoc, List.singleton_append]

/-- The coordinates of the points are the keys of `byLoc` when every entry
matches its key. -/
theorem pointsOf_coords (byLoc : List ((ℚ × ℚ) × LocEntry)) (h : KeysMatch byLoc) :
    (pointsOf byLoc).map (fun p => (p.latitude, p.longitude)) = byLoc.map Prod.fst := by
  induction byLoc with
  | nil => rfl
  | cons kv l ih =>
    have hl : KeysMatch l := fun x hx => h x (List.mem_cons_of_mem _ hx)
    have hkv := h kv (List.mem_cons_self _ _)
    simp only [pointsOf, List.map_cons, List.map_map] at ih ⊢
    rw [ih hl]
    congr 1

/-- C13: on a result list without a `null` entry the grouping completes and
the points are, by their coordinates, exactly the distinct
"latitude,longitude" keys of the measurements that carry coordinates (entries
without coordinates are skipped): one point per key, each with the latitude and
longitude of its group, in the order in which each key first appears. -/
theorem map_points_one_per_key (es : List JsonEntry) (hnull : JsonEntry.null ∉ es) :
    ∃ byLoc, groupByLocation es = some byLoc ∧
      (pointsOf byLoc).map (fun p => (p.latitude, p.longitude)) =
        firstOccurrences (coordKeys es) ∧
      ((pointsOf byLoc).map (fun p => (p.latitude, p.longitude))).Nodup ∧
      (∀ k : ℚ × ℚ, k ∈ (pointsOf byLoc).map (fun p => (p.latitude, p.longitude)) ↔
        ∃ m c, JsonEntry.meas m ∈ es ∧ m.coordinates = some c ∧
          (c.latitude, c.longitude) = k) ∧
      (pointsOf byLoc).map (fun p => (p.latitude, p.longitude)) =
        byLoc.map (fun kv => (kv.2.coords.latitude, kv.2.coords.longitude)) := by
  obtain ⟨byLoc, h1, h2, h3⟩ := groupFrom_spec es [] hnull
  have hm : KeysMatch byLoc := h3 (fun kv hkv => absurd hkv (List.not_mem_nil _))
  have hkeys : (pointsOf byLoc).map (fun p => (p.latitude, p.longitude)) =
      firstOccurrences (coordKeys es) := by
    rw [pointsOf_coords byLoc hm, h2]
    simp
  refine ⟨byLoc, h1, hkeys, ?_, ?_, ?_⟩
  · rw [hkeys]
    exact nodup_firstOccurrences _
  · intro k
    rw [hkeys, mem_firstOccurrences, mem_coordKeys]
    rfl
  · simp only [pointsOf, List.map_map]
    rfl

theorem map_points_one_per_key_witness :
    JsonEntry.null ∉
        [JsonEntry.meas ⟨Parameter.str "pm25", some 10, some ⟨1, 2⟩, none⟩,
         JsonEntry.meas ⟨Parameter.str "pm10", some 7, none, none⟩,
         JsonEntry.meas ⟨Parameter.str "pm10", some 30, some ⟨1, 2⟩, none⟩] ∧
      ∃ byLoc,
        groupByLocation
          [JsonEntry.meas ⟨Parameter.str "pm25", some 10, some ⟨1, 2⟩, none⟩,
           JsonEntry.meas ⟨Parameter.str "pm10", some 7, none, none⟩,
           JsonEntry.meas ⟨Parameter.str "pm10", some 30, some ⟨1, 2⟩, none⟩] = some byLoc ∧
        (pointsOf byLoc).map (fun p => (p.latitude, p.longitude)) = [(1, 2)] :=
  have hnull : JsonEntry.null ∉
      [JsonEntry.meas ⟨Parameter.str "pm25", some 10, some ⟨1, 2⟩, none⟩,
       JsonEntry.meas ⟨Parameter.str "pm10", some 7, none, none⟩,
       JsonEntry.meas ⟨Parameter.str "pm10", some 30, some ⟨1, 2⟩, none⟩] := by simp
  ⟨hnull,
    (map_points_one_per_key _ hnull).imp fun _ h =>
      ⟨h.1, h.2.1.trans (by simp [coordKeys, firstOccurrences, keyFor])⟩⟩

/-! ### The points -/

theorem calculate_zero :
    calculateAqiFromPm25 (some (JsNumber.fin 0)) =
      { value := some 0, category := "Good", description := descMap "Good" } := by
  have h := calculate_of_mem 0 ⟨0, 12, 0, 50, "Good"⟩ (by simp [ranges]) (by norm_num)
    (by norm_num)
  have hint : interpolate ⟨0, 12, 0, 50, "Good"⟩ 0 = ((0 : ℤ) : ℚ) := by
    norm_num [interpolate]
  rw [hint, mathRound_intCast] at h
  exact h

theorem aqiPm25_none : aqiPm25 none = 0 := by
  simp [aqiPm25, toNumber, calculate_zero]

theorem aqiPm25_zero : aqiPm25 (some 0) = 0 := by
  simp [aqiPm25, toNumber, calculate_zero]

/-- The value on a finite number is never `null`, so `?? 0` returns it. -/
theorem value_eq_some_aqiPm25 (pm25 : Option ℚ) :
    (calculateAqiFromPm25 (some (toNumber pm25))).value = some (aqiPm25 pm25) := by
  unfold aqiPm25 toNumber
  rcases calculate_cases (pm25.getD 0) with ⟨_, h⟩ | ⟨r, _, _, _, h⟩ <;> rw [h] <;> rfl

/-- The category of a result with a value is the band label of the value. -/
theorem category_eq_getAQICategory (x : Option JsNumber) (v : ℤ)
    (hv : (calculateAqiFromPm25 x).value = some v) :
    (calculateAqiFromPm25 x).category = getAQICategory v := by
  rcases x with _ | _ | c
  · simp [calculateAqiFromPm25] at hv
  · simp [calculateAqiFromPm25] at hv
  · rcases calculate_cases c with ⟨_, h⟩ | ⟨r, hr, hlo, hhi, h⟩
    · rw [h] at hv ⊢
      simp only [Option.some.injEq] at hv
      subst hv
      simp [getAQICategory]
    · rw [h] at hv ⊢
      simp only [Option.some.injEq] at hv
      subst hv
      have hb := value_mem_band c r hr hlo hhi
      exact (getAQICategory_of_band r hr _ hb.1 hb.2).symm

theorem severityRank_eq_colorRank (a : ℤ) :
    severityRank (getAQICategory a) = colorRank (colorForAqi a) := by
  simp only [getAQICategory, colorForAqi]
  repeat' split
  all_goals simp [severityRank, colorRank]

/-- C14: for every location group whose PM2.5 value (`entry.pm25?.value`) is
absent or zero the aqi of the map point is `min(round(pm10 * 0.5), 200)`, where
pm10 is the PM10 value of the group (`entry.pm10?.value`) taken as 0 when
absent; hence the aqi is at most 200, and it is 0 when both values are absent.
The point carries the two values of the group as its `pm25` and `pm10`. -/
theorem pointOf_aqi_from_pm10 (entry : LocEntry)
    (h : (entry.get "pm25").bind (fun m => m.value) = none ∨
      (entry.get "pm25").bind (fun m => m.value) = some 0) :
    (pointOf entry).aqi =
        min (mathRound (((entry.get "pm10").bind (fun m => m.value)).getD 0 * (1 / 2))) 200 ∧
      (pointOf entry).aqi ≤ 200 ∧
      ((entry.get "pm25").bind (fun m => m.value) = none →
        (entry.get "pm10").bind (fun m => m.value) = none → (pointOf entry).aqi = 0) ∧
      (pointOf entry).pm25 = (entry.get "pm25").bind (fun m => m.value) ∧
      (pointOf entry).pm10 = (entry.get "pm10").bind (fun m => m.value) := by
  have h0 : aqiPm25 ((entry.get "pm25").bind (fun m => m.value)) = 0 := by
    rcases h with h | h <;> rw [h]
    · exact aqiPm25_none
    · exact aqiPm25_zero
  have haqi : (pointOf entry).aqi =
      min (mathRound (((entry.get "pm10").bind (fun m => m.value)).getD 0 * (1 / 2))) 200 := by
    show approxAqi ((entry.get "pm25").bind (fun m => m.value))
      ((entry.get "pm10").bind (fun m => m.value)) = _
    unfold approxAqi
    rw [h0]
    simp only [ne_eq, not_true_eq_false, if_false]
    by_cases hz : ((entry.get "pm10").bind (fun m => m.value)).getD 0 = 0
    · rw [if_pos hz, hz]
    · rw [if_neg hz]
  refine ⟨haqi, ?_, ?_, rfl, rfl⟩
  · rw [haqi]
    exact min_le_right _ _
  · intro _ h10
    rw [haqi, h10]
    have hr : mathRound ((none : Option ℚ).getD 0 * (1 / 2)) = 0 := by
      rw [mathRound_eq_iff]
      norm_num
    rw [hr]
    rfl

theorem pointOf_aqi_from_pm10_witness :
    (pointOf ⟨[("pm10", ⟨Parameter.str "pm10", some 100, some ⟨1, 2⟩, none⟩)], ⟨1, 2⟩⟩).aqi =
        50 ∧
      (pointOf
        ⟨[("pm10", ⟨Parameter.str "pm10", some 500, some ⟨1, 2⟩, none⟩),
          ("pm25", ⟨Parameter.str "pm25", some 0, some ⟨1, 2⟩, none⟩)], ⟨1, 2⟩⟩).aqi = 200 := by
  constructor
  · have h := (pointOf_aqi_from_pm10
      ⟨[("pm10", ⟨Parameter.str "pm10", some 100, some ⟨1, 2⟩, none⟩)], ⟨1, 2⟩⟩
      (Or.inl (by simp [LocEntry.get, List.lookup]))).1
    have h10 : (LocEntry.get
        ⟨[("pm10", ⟨Parameter.str "pm10", some 100, some ⟨1, 2⟩, none⟩)], ⟨1, 2⟩⟩ "pm10").bind
        (fun m => m.value) = some 100 := by
      simp [LocEntry.get, List.lookup]
    have hround : mathRound ((some (100 : ℚ)).getD 0 * (1 / 2)) = 50 := by
      rw [mathRound_eq_iff]
      norm_num
    rw [h10, hround] at h
    rw [h]
    rfl
  · have h := (pointOf_aqi_from_pm10
      ⟨[("pm10", ⟨Parameter.str "pm10", some 500, some ⟨1, 2⟩, none⟩),
        ("pm25", ⟨Parameter.str "pm25", some 0, some ⟨1, 2⟩, none⟩)], ⟨1, 2⟩⟩
      (Or.inr (by simp [LocEntry.get, List.lookup]))).1
    have h10 : (LocEntry.get
        ⟨[("pm10", ⟨Parameter.str "pm10", some 500, some ⟨1, 2⟩, none⟩),
          ("pm25", ⟨Parameter.str "pm25", some 0, some ⟨1, 2⟩, none⟩)], ⟨1, 2⟩⟩ "pm10").bind
        (fun m => m.value) = some 500 := by
      simp [LocEntry.get, List.lookup]
    have hround : mathRound ((some (500 : ℚ)).getD 0 * (1 / 2)) = 250 := by
      rw [mathRound_eq_iff]
      norm_num
    rw [h10, hround] at h
    rw [h]
    rfl

/-- C15, on the code: a group with the PM2.5 value 0.1 (present and not zero)
and the PM10 value 100.  The index of 0.1 is 0, which `||` treats like a missing
value, so the aqi of the point is `min(round(100 * 0.5), 200) = 50` and not the
value 0 of `calculateAqiFromPm25(0.1)`. -/
theorem pointOf_small_pm25_uses_pm10 :
    (pointOf
      ⟨[("pm10", ⟨Parameter.str "pm10", some 100, some ⟨1, 2⟩, none⟩),
        ("pm25", ⟨Parameter.str "pm25", some (1 / 10), some ⟨1, 2⟩, none⟩)], ⟨1, 2⟩⟩).pm25 =
        some (1 / 10) ∧
      (calculateAqiFromPm25 (some (toNumber (some (1 / 10))))).value = some 0 ∧
      (pointOf
        ⟨[("pm10", ⟨Parameter.str "pm10", some 100, some ⟨1, 2⟩, none⟩),
          ("pm25", ⟨Parameter.str "pm25", some (1 / 10), some ⟨1, 2⟩, none⟩)], ⟨1, 2⟩⟩).aqi =
        50 := by
  have hcalc : (calculateAqiFromPm25 (some (toNumber (some (1 / 10))))).value = some 0 := by
    show (calculateAqiFromPm25 (some (JsNumber.fin ((some (1 / 10 : ℚ)).getD 0)))).value = _
    simp only [Option.getD_some]
    rw [calculate_of_mem (1 / 10) ⟨0, 12, 0, 50, "Good"⟩ (by simp [ranges]) (by norm_num)
      (by norm_num)]
    simp only [Option.some.injEq]
    rw [mathRound_eq_iff]
    norm_num [interpolate]
  have h25 : aqiPm25 (some (1 / 10)) = 0 := by
    unfold aqiPm25
    rw [hcalc]
    rfl
  have hround : mathRound (50 : ℚ) = 50 := by
    rw [mathRound_eq_iff]
    norm_num
  refine ⟨by simp [pointOf, LocEntry.get, List.lookup], hcalc, ?_⟩
  have hp25 : (pointOf
      ⟨[("pm10", ⟨Parameter.str "pm10", some 100, some ⟨1, 2⟩, none⟩),
        ("pm25", ⟨Parameter.str "pm25", some (1 / 10), some ⟨1, 2⟩, none⟩)], ⟨1, 2⟩⟩).aqi =
      approxAqi (some (1 / 10)) (some 100) := by
    simp [pointOf, LocEntry.get, List.lookup]
  rw [hp25]
  unfold approxAqi
  rw [h25]
  norm_num [hround]

/-- C16: every point of the map aggregation has the category and the colour of
its own aqi under the same six thresholds, so both denote the same band; and
when the aqi comes from PM2.5 (the PM2.5 index is not 0) the category is the one
`calculateAqiFromPm25` returns for the PM2.5 value. -/
theorem points_category_and_color (byLoc : List ((ℚ × ℚ) × LocEntry)) :
    ∀ p ∈ pointsOf byLoc,
      p.category = getAQICategory p.aqi ∧
      p.color = colorForAqi p.aqi ∧
      severityRank p.category = colorRank p.color ∧
      (aqiPm25 p.pm25 ≠ 0 →
        p.aqi = aqiPm25 p.pm25 ∧
        p.category = (calculateAqiFromPm25 (some (toNumber p.pm25))).category) := by
  intro p hp
  simp only [pointsOf, List.mem_map] at hp
  obtain ⟨kv, _, rfl⟩ := hp
  have hcat : (pointOf kv.2).category = getAQICategory (pointOf kv.2).aqi := rfl
  have hcol : (pointOf kv.2).color = colorForAqi (pointOf kv.2).aqi := rfl
  refine ⟨hcat, hcol, ?_, ?_⟩
  · rw [hcat, hcol]
    exact severityRank_eq_colorRank _
  · intro hne
    have haqi : (pointOf kv.2).aqi = aqiPm25 (pointOf kv.2).pm25 := by
      show approxAqi (pointOf kv.2).pm25 (pointOf kv.2).pm10 = _
      unfold approxAqi
      rw [if_pos hne]
    refine ⟨haqi, ?_⟩
    rw [hcat, haqi]
    exact (category_eq_getAQICategory _ _ (value_eq_some_aqiPm25 _)).symm

theorem points_category_and_color_witness :
    (pointOf ⟨[("pm25", ⟨Parameter.str "pm25", some 600, some ⟨1, 2⟩, none⟩)], ⟨1, 2⟩⟩).aqi =
        aqiPm25 (pointOf
          ⟨[("pm25", ⟨Parameter.str "pm25", some 600, some ⟨1, 2⟩, none⟩)], ⟨1, 2⟩⟩).pm25 ∧
      (pointOf ⟨[("pm25", ⟨Parameter.str "pm25", some 600, some ⟨1, 2⟩, none⟩)], ⟨1, 2⟩⟩).category =
        (calculateAqiFromPm25 (some (toNumber (pointOf
          ⟨[("pm25", ⟨Parameter.str "pm25", some 600, some ⟨1, 2⟩, none⟩)],
            ⟨1, 2⟩⟩).pm25))).category :=
  have hne : aqiPm25 (pointOf
      ⟨[("pm25", ⟨Parameter.str "pm25", some 600, some ⟨1, 2⟩, none⟩)], ⟨1, 2⟩⟩).pm25 ≠ 0 := by
    have hp : (pointOf
        ⟨[("pm25", ⟨Parameter.str "pm25", some 600, some ⟨1, 2⟩, none⟩)], ⟨1, 2⟩⟩).pm25 =
        some 600 := by
      simp [pointOf, LocEntry.get, List.lookup]
    rw [hp]
    unfold aqiPm25 toNumber
    simp only [Option.getD_some]
    rw [calculate_of_unmatched 600 (unmatched_above 600 (by norm_num))]
    decide
  (points_category_and_color
    [((1, 2), ⟨[("pm25", ⟨Parameter.str "pm25", some 600, some ⟨1, 2⟩, none⟩)], ⟨1, 2⟩⟩)]
    _ (by simp [pointsOf])).2.2.2 hne

/-! ### The map handler -/

/-- Entries without coordinates leave `byLoc` as it is. -/
theorem groupFrom_no_coordinates (es : List JsonEntry) :
    ∀ acc : List ((ℚ × ℚ) × LocEntry),
      (∀ e ∈ es, e = JsonEntry.primitive ∨ ∃ m, e = JsonEntry.meas m ∧ m.coordinates = none) →
      groupFrom acc es = some acc := by
  induction es with
  | nil => intro acc _; rfl
  | cons e es ih =>
    intro acc h
    have hrest := fun x hx => h x (List.mem_cons_of_mem _ hx)
    rcases h e (List.mem_cons_self _ _) with rfl | ⟨m, rfl, hm⟩
    · simpa only [groupFrom] using ih acc hrest
    · simpa only [groupFrom, groupStep, hm] using ih acc hrest

theorem foldl_max_spec (xs : List ℚ) :
    ∀ x : ℚ, (∀ y ∈ x :: xs, y ≤ xs.foldl max x) ∧ xs.foldl max x ∈ x :: xs := by
  induction xs with
  | nil => intro x; simp
  | cons a xs ih =>
    intro x
    obtain ⟨h1, h2⟩ := ih (max x a)
    simp only [List.foldl_cons]
    constructor
    · intro y hy
      rcases List.mem_cons.1 hy with rfl | hy
      · exact le_trans (le_max_left _ _) (h1 _ (List.mem_cons_self _ _))
      · rcases List.mem_cons.1 hy with rfl | hy
        · exact le_trans (le_max_right _ _) (h1 _ (List.mem_cons_self _ _))
        · exact h1 y (List.mem_cons_of_mem _ hy)
    · rcases List.mem_cons.1 h2 with h | h
      · rcases max_choice x a with hm | hm
        · rw [h, hm]; exact List.mem_cons_self _ _
        · rw [h, hm]; exact List.mem_cons_of_mem _ (List.mem_cons_self _ _)
      · exact List.mem_cons_of_mem _ (List.mem_cons_of_mem _ h)

theorem foldl_min_spec (xs : List ℚ) :
    ∀ x : ℚ, (∀ y ∈ x :: xs, xs.foldl min x ≤ y) ∧ xs.foldl min x ∈ x :: xs := by
  induction xs with
  | nil => intro x; simp
  | cons a xs ih =>
    intro x
    obtain ⟨h1, h2⟩ := ih (min x a)
    simp only [List.foldl_cons]
    constructor
    · intro y hy
      rcases List.mem_cons.1 hy with rfl | hy
      · exact le_trans (h1 _ (List.mem_cons_self _ _)) (min_le_left _ _)
      · rcases List.mem_cons.1 hy with rfl | hy
        · exact le_trans (h1 _ (List.mem_cons_self _ _)) (min_le_right _ _)
        · exact h1 y (List.mem_cons_of_mem _ hy)
    · rcases List.mem_cons.1 h2 with h | h
      · rcases min_choice x a with hm | hm
        · rw [h, hm]; exact List.mem_cons_self _ _
        · rw [h, hm]; exact List.mem_cons_of_mem _ (List.mem_cons_self _ _)
      · exact List.mem_cons_of_mem _ (List.mem_cons_of_mem _ h)

/-- On a non-empty list `Math.max` is finite, bounds every element and is one
of them. -/
theorem mathMax_spec (l : List ℚ) (hne : l ≠ []) :
    ∃ n : ℚ, mathMax l = Extreme.fin n ∧ (∀ y ∈ l, y ≤ n) ∧ n ∈ l := by
  cases l with
  | nil => exact absurd rfl hne
  | cons x xs => exact ⟨xs.foldl max x, rfl, (foldl_max_spec xs x).1, (foldl_max_spec xs x).2⟩

/-- On a non-empty list `Math.min` is finite, bounds every element and is one
of them. -/
theorem mathMin_spec (l : List ℚ) (hne : l ≠ []) :
    ∃ n : ℚ, mathMin l = Extreme.fin n ∧ (∀ y ∈ l, n ≤ y) ∧ n ∈ l := by
  cases l with
  | nil => exact absurd rfl hne
  | cons x xs => exact ⟨xs.foldl min x, rfl, (foldl_min_spec xs x).1, (foldl_min_spec xs x).2⟩

/-- The bounds of a non-empty list of points are the extremes of their
coordinates. -/
theorem boundsOf_spec (pts : List MapPoint) (hne : pts ≠ []) :
    ∃ n s e w : ℚ,
      boundsOf pts =
        { north := Extreme.fin n, south := Extreme.fin s,
          east := Extreme.fin e, west := Extreme.fin w } ∧
      (∀ p ∈ pts, s ≤ p.latitude ∧ p.latitude ≤ n ∧ w ≤ p.longitude ∧ p.longitude ≤ e) ∧
      (∃ p ∈ pts, p.latitude = n) ∧ (∃ p ∈ pts, p.latitude = s) ∧
      (∃ p ∈ pts, p.longitude = e) ∧ (∃ p ∈ pts, p.longitude = w) := by
  have hlat : pts.map (fun p => p.latitude) ≠ [] := by simpa using hne
  have hlng : pts.map (fun p => p.longitude) ≠ [] := by simpa using hne
  obtain ⟨n, hn, hn1, hn2⟩ := mathMax_spec _ hlat
  obtain ⟨s, hs, hs1, hs2⟩ := mathMin_spec _ hlat
  obtain ⟨e, he, he1, he2⟩ := mathMax_spec _ hlng
  obtain ⟨w, hw, hw1, hw2⟩ := mathMin_spec _ hlng
  refine ⟨n, s, e, w, ?_, ?_, ?_, ?_, ?_, ?_⟩
  · simp only [boundsOf, hn, hs, he, hw]
  · intro p hp
    exact ⟨hs1 _ (List.mem_map_of_mem _ hp), hn1 _ (List.mem_map_of_mem _ hp),
      hw1 _ (List.mem_map_of_mem _ hp), he1 _ (List.mem_map_of_mem _ hp)⟩
  · obtain ⟨p, hp, hpe⟩ := List.mem_map.1 hn2
    exact ⟨p, hp, hpe⟩
  · obtain ⟨p, hp, hpe⟩ := List.mem_map.1 hs2
    exact ⟨p, hp, hpe⟩
  · obtain ⟨p, hp, hpe⟩ := List.mem_map.1 he2
    exact ⟨p, hp, hpe⟩
  · obtain ⟨p, hp, hpe⟩ := List.mem_map.1 hw2
    exact ⟨p, hp, hpe⟩

/-- C17: when the live source succeeds but yields zero aggregated points (the
`results` field is missing or empty, or every entry lacks coordinates), the map
handler responds with dataSource "sample_empty" and with the map points of the
sample dataset as mapData. -/
theorem mapHandler_sample_empty (es : List JsonEntry) (sample : Sample) (now : String)
    (h : ∀ e ∈ es, e = JsonEntry.primitive ∨
      ∃ m, e = JsonEntry.meas m ∧ m.coordinates = none) :
    (∃ r, mapHandler (.ok (Body.obj (ResultsField.list es))) sample now = MapResult.ok r ∧
      r.dataSource = "sample_empty" ∧ r.mapData = sample.mapData) ∧
    (∃ r, mapHandler (.ok (Body.obj ResultsField.falsy)) sample now = MapResult.ok r ∧
      r.dataSource = "sample_empty" ∧ r.mapData = sample.mapData) := by
  constructor
  · refine ⟨sampleMapResponse sample now "sample_empty", ?_, rfl, rfl⟩
    simp only [mapHandler, mapFromResults, groupByLocation, groupFrom_no_coordinates es [] h,
      pointsOf, List.map_nil, List.length_nil, if_true]
  · exact ⟨sampleMapResponse sample now "sample_empty", rfl, rfl, rfl⟩

theorem mapHandler_sample_empty_witness :
    ∃ r, mapHandler
        (.ok (Body.obj (ResultsField.list
          [JsonEntry.meas ⟨Parameter.str "pm25", some 10, none, none⟩])))
        ⟨[⟨40, -74, 42, "Good", some 10, some 20, "#00E400"⟩], some 10, some 20, none, none,
          none, none⟩ "t" = MapResult.ok r ∧
      r.dataSource = "sample_empty" ∧
      r.mapData = [⟨40, -74, 42, "Good", some 10, some 20, "#00E400"⟩] :=
  (mapHandler_sample_empty
    [JsonEntry.meas ⟨Parameter.str "pm25", some 10, none, none⟩]
    ⟨[⟨40, -74, 42, "Good", some 10, some 20, "#00E400"⟩], some 10, some 20, none, none,
      none, none⟩ "t"
    (by
      intro e he
      rw [List.mem_singleton] at he
      exact Or.inr ⟨_, he, rfl⟩)).1

/-- C18: when the source adapter fails, the map handler responds with
dataSource "sample_fallback" and the map points of the sample dataset as
mapData, and the bounds are the extremes of those points: north and south the
maximum and minimum latitude, east and west the maximum and minimum longitude. -/
theorem mapHandler_sample_fallback (msg : String) (sample : Sample) (now : String) :
    ∃ r, mapHandler (.error msg) sample now = MapResult.ok r ∧
      r.dataSource = "sample_fallback" ∧ r.mapData = sample.mapData ∧
      r.bounds.north = mathMax (sample.mapData.map (fun p => p.latitude)) ∧
      r.bounds.south = mathMin (sample.mapData.map (fun p => p.latitude)) ∧
      r.bounds.east = mathMax (sample.mapData.map (fun p => p.longitude)) ∧
      r.bounds.west = mathMin (sample.mapData.map (fun p => p.longitude)) ∧
      (sample.mapData ≠ [] →
        ∃ n s e w : ℚ,
          r.bounds =
            { north := Extreme.fin n, south := Extreme.fin s,
              east := Extreme.fin e, west := Extreme.fin w } ∧
          (∀ p ∈ sample.mapData,
            s ≤ p.latitude ∧ p.latitude ≤ n ∧ w ≤ p.longitude ∧ p.longitude ≤ e) ∧
          (∃ p ∈ sample.mapData, p.latitude = n) ∧ (∃ p ∈ sample.mapData, p.latitude = s) ∧
          (∃ p ∈ sample.mapData, p.longitude = e) ∧
          (∃ p ∈ sample.mapData, p.longitude = w)) :=
  ⟨sampleMapResponse sample now "sample_fallback", rfl, rfl, rfl, rfl, rfl, rfl, rfl,
    fun hne => boundsOf_spec sample.mapData hne⟩

theorem mapHandler_sample_fallback_witness :
    ∃ r, mapHandler (.error "OpenAQ error 500: unavailable")
        ⟨[⟨40, -74, 42, "Good", some 10, some 20, "#00E400"⟩,
          ⟨41, -73, 120, "Unhealthy for Sensitive Groups", some 43, some 60, "#FF8C00"⟩],
          some 10, some 20, none, none, none, none⟩ "t" = MapResult.ok r ∧
      r.dataSource = "sample_fallback" ∧
      ∃ n s e w : ℚ,
        r.bounds =
          { north := Extreme.fin n, south := Extreme.fin s,
            east := Extreme.fin e, west := Extreme.fin w } := by
  obtain ⟨r, h1, h2, _, _, _, _, _, h8⟩ :=
    mapHandler_sample_fallback "OpenAQ error 500: unavailable"
      ⟨[⟨40, -74, 42, "Good", some 10, some 20, "#00E400"⟩,
        ⟨41, -73, 120, "Unhealthy for Sensitive Groups", some 43, some 60, "#FF8C00"⟩],
        some 10, some 20, none, none, none, none⟩ "t"
  obtain ⟨n, s, e, w, hb, _⟩ := h8 (by simp)
  exact ⟨r, h1, h2, n, s, e, w, hb⟩

/-! ### The current-reading handler -/

/-- The data source of a current response is the one the configuration fixes. -/
theorem currentHandler_dataSource (apiKey : Option String) (health : Option HealthData)
    (outcome : Except String Body) (sample : Sample) (now : String) :
    (currentHandler apiKey health outcome sample now).dataSource = currentDataSource apiKey :=
  rfl

/-- C19, as the spec states it, fails: with no API key configured, and also
with one, a response built from a live pm25 measurement (value 8) and a response
built from the sample (value 35) after an adapter failure have the same
dataSource. -/
theorem currentHandler_dataSource_counterexample :
    (currentHandler none none
        (.ok (Body.obj (ResultsField.list
          [JsonEntry.meas ⟨Parameter.str "pm25", some 8, some ⟨1, 2⟩, none⟩])))
        ⟨[], some 35, some 50, none, none, none, none⟩ "t").pollutants.pm25 = some 8 ∧
      (currentHandler none none (.error "OpenAQ error 500: unavailable")
        ⟨[], some 35, some 50, none, none, none, none⟩ "t").pollutants.pm25 = some 35 ∧
      (currentHandler none none
        (.ok (Body.obj (ResultsField.list
          [JsonEntry.meas ⟨Parameter.str "pm25", some 8, some ⟨1, 2⟩, none⟩])))
        ⟨[], some 35, some 50, none, none, none, none⟩ "t").dataSource =
        (currentHandler none none (.error "OpenAQ error 500: unavailable")
          ⟨[], some 35, some 50, none, none, none, none⟩ "t").dataSource ∧
      (currentHandler (some "key") none
        (.ok (Body.obj (ResultsField.list
          [JsonEntry.meas ⟨Parameter.str "pm25", some 8, some ⟨1, 2⟩, none⟩])))
        ⟨[], some 35, some 50, none, none, none, none⟩ "t").dataSource =
        (currentHandler (some "key") none (.error "OpenAQ error 500: unavailable")
          ⟨[], some 35, some 50, none, none, none, none⟩ "t").dataSource := by
  refine ⟨?_, ?_, rfl, rfl⟩
  · simp [currentHandler, currentPollutants, liveLatest, latestByParam, latestFrom,
      latestStep, livePollutants, List.lookup, Parameter.key]
  · simp [currentHandler, currentPollutants, liveLatest, samplePollutants]

/-- C19 (amended): the dataSource field of a current response is determined by
the configuration alone.  It is "openaq_v3" when an API key is set and
"openaq_v3_or_sample" when none is set (or it is empty), the same for a response
built from live provider data and for one built from the sample after an adapter
failure. -/
theorem currentHandler_dataSource_config_only (apiKey : Option String)
    (health : Option HealthData) (live : Body) (msg : String) (sample : Sample)
    (now : String) :
    (currentHandler apiKey health (.ok live) sample now).dataSource =
        (currentHandler apiKey health (.error msg) sample now).dataSource ∧
      ((apiKey = none ∨ apiKey = some "") →
        (currentHandler apiKey health (.ok live) sample now).dataSource =
          "openaq_v3_or_sample") ∧
      (∀ k : String, apiKey = some k → k ≠ "" →
        (currentHandler apiKey health (.ok live) sample now).dataSource = "openaq_v3") := by
  refine ⟨rfl, ?_, ?_⟩
  · rintro (rfl | rfl) <;> rfl
  · rintro k rfl hk
    simp only [currentHandler_dataSource, currentDataSource, if_neg hk]

theorem currentHandler_dataSource_config_only_witness :
    (currentHandler none none (.ok Body.null)
        ⟨[], some 35, some 50, none, none, none, none⟩ "t").dataSource =
        "openaq_v3_or_sample" ∧
      (currentHandler (some "key") none (.ok Body.null)
        ⟨[], some 35, some 50, none, none, none, none⟩ "t").dataSource = "openaq_v3" :=
  ⟨(currentHandler_dataSource_config_only none none Body.null "e"
      ⟨[], some 35, some 50, none, none, none, none⟩ "t").2.1 (Or.inl rfl),
   (currentHandler_dataSource_config_only (some "key") none Body.null "e"
      ⟨[], some 35, some 50, none, none, none, none⟩ "t").2.2 "key" rfl (by decide)⟩

/-- C20, as the spec states it, fails: with a sample whose pm25 value is 35, an
adapter that succeeds with an empty result list gives a response whose pm25
value is `null`, not the 35 of the sample that a failing adapter gives. -/
theorem currentHandler_empty_results_counterexample :
    (currentHandler none none (.ok (Body.obj (ResultsField.list [])))
        ⟨[], some 35, some 50, none, none, none, none⟩ "t").pollutants.pm25 = none ∧
      (currentHandler none none (.error "OpenAQ error 500: unavailable")
        ⟨[], some 35, some 50, none, none, none, none⟩ "t").pollutants.pm25 = some 35 ∧
      (currentHandler none none (.ok (Body.obj (ResultsField.list [])))
        ⟨[], some 35, some 50, none, none, none, none⟩ "t").pollutants ≠
        (currentHandler none none (.error "OpenAQ error 500: unavailable")
          ⟨[], some 35, some 50, none, none, none, none⟩ "t").pollutants := by
  have h1 : (currentHandler none none (.ok (Body.obj (ResultsField.list [])))
      ⟨[], some 35, some 50, none, none, none, none⟩ "t").pollutants =
      ⟨none, none, none, none, none, none⟩ := rfl
  have h2 : (currentHandler none none (.error "OpenAQ error 500: unavailable")
      ⟨[], some 35, some 50, none, none, none, none⟩ "t").pollutants =
      ⟨some 35, some 50, none, none, none, none⟩ := rfl
  rw [h1, h2]
  refine ⟨rfl, rfl, ?_⟩
  intro h
  have := congrArg Pollutants.pm25 h
  simp at this

/-- C20 (amended): for the current-reading handler an empty result is not a
fallback case.  When the adapter fails, the pollutant values of the response, and
the AQI computed from pm25, are those of the sample dataset; when the adapter
succeeds with an empty result list, or with a body that has no results, every
pollutant value of the response is `null`, whatever the sample holds. -/
theorem currentHandler_empty_results_no_fallback (apiKey : Option String)
    (health : Option HealthData) (msg : String) (sample : Sample) (now : String) :
    (currentHandler apiKey health (.error msg) sample now).pollutants =
        { pm25 := sample.pm25, pm10 := sample.pm10, o3 := sample.o3,
          no2 := sample.no2, so2 := sample.so2, co := sample.co } ∧
      (currentHandler apiKey health (.error msg) sample now).aqi =
        calculateAqiFromPm25 (some (toNumber sample.pm25)) ∧
      (currentHandler apiKey health (.ok (Body.obj (ResultsField.list []))) sample now).pollutants =
        { pm25 := none, pm10 := none, o3 := none, no2 := none, so2 := none, co := none } ∧
      (currentHandler apiKey health (.ok (Body.obj ResultsField.falsy)) sample now).pollutants =
        { pm25 := none, pm10 := none, o3 := none, no2 := none, so2 := none, co := none } :=
  ⟨rfl, rfl, rfl, rfl⟩

/-! ### Monotonicity inside the table -/

/-- Inside one range the interpolated number grows with the concentration. -/
theorem interpolate_mono (r : Range) (hr : r ∈ ranges) {c1 c2 : ℚ} (h : c1 ≤ c2) :
    interpolate r c1 ≤ interpolate r c2 := by
  rw [mem_ranges_iff] at hr
  rcases hr with rfl | rfl | rfl | rfl | rfl | rfl <;>
    simp only [interpolate] <;>
    norm_num <;>
    linarith

/-- Two ranges of the table that contain `c1 ≤ c2` are the same range, or the
band of the first lies below the band of the second. -/
theorem ranges_ordered (r1 r2 : Range) (h1 : r1 ∈ ranges) (h2 : r2 ∈ ranges) {c1 c2 : ℚ}
    (hc : c1 ≤ c2) (hlo1 : r1.cLow ≤ c1) (hhi1 : c1 ≤ r1.cHigh)
    (hlo2 : r2.cLow ≤ c2) (hhi2 : c2 ≤ r2.cHigh) :
    r1 = r2 ∨ r1.iHigh ≤ r2.iLow := by
  rw [mem_ranges_iff] at h1 h2
  rcases h1 with rfl | rfl | rfl | rfl | rfl | rfl <;>
    rcases h2 with rfl | rfl | rfl | rfl | rfl | rfl <;>
    simp only [] at hlo1 hhi1 hlo2 hhi2 <;>
    first
      | exact Or.inl rfl
      | (right; simp only []; omega)
      | (exfalso; linarith)

/-- C29: inside the table `calculateAqiFromPm25` stays in the matched band and
is monotone.  For every `c` that a range matches the value lies between `iLow`
and `iHigh` of that range, and for `c1 ≤ c2` that are each matched by a range of
the table the value at `c1` is at most the value at `c2`. -/
theorem calculateAqiFromPm25_band_and_monotone :
    (∀ (c : ℚ) (r : Range), r ∈ ranges → r.cLow ≤ c → c ≤ r.cHigh →
      ∃ v : ℤ, (calculateAqiFromPm25 (some (JsNumber.fin c))).value = some v ∧
        r.iLow ≤ v ∧ v ≤ r.iHigh) ∧
    (∀ (c1 c2 : ℚ) (r1 r2 : Range), r1 ∈ ranges → r2 ∈ ranges →
      r1.cLow ≤ c1 → c1 ≤ r1.cHigh → r2.cLow ≤ c2 → c2 ≤ r2.cHigh → c1 ≤ c2 →
      ∃ v1 v2 : ℤ, (calculateAqiFromPm25 (some (JsNumber.fin c1))).value = some v1 ∧
        (calculateAqiFromPm25 (some (JsNumber.fin c2))).value = some v2 ∧ v1 ≤ v2) := by
  constructor
  · intro c r hr hlo hhi
    have hb := value_mem_band c r hr hlo hhi
    exact ⟨_, by rw [calculate_of_mem c r hr hlo hhi], hb.1, hb.2⟩
  · intro c1 c2 r1 r2 h1 h2 hlo1 hhi1 hlo2 hhi2 hc
    refine ⟨_, _, by rw [calculate_of_mem c1 r1 h1 hlo1 hhi1],
      by rw [calculate_of_mem c2 r2 h2 hlo2 hhi2], ?_⟩
    rcases ranges_ordered r1 r2 h1 h2 hc hlo1 hhi1 hlo2 hhi2 with rfl | hband
    · exact mathRound_mono (interpolate_mono r1 h1 hc)
    · have hb1 := value_mem_band c1 r1 h1 hlo1 hhi1
      have hb2 := value_mem_band c2 r2 h2 hlo2 hhi2
      omega

theorem calculateAqiFromPm25_band_and_monotone_witness :
    ∃ v1 v2 : ℤ, (calculateAqiFromPm25 (some (JsNumber.fin 10))).value = some v1 ∧
      (calculateAqiFromPm25 (some (JsNumber.fin 40))).value = some v2 ∧ v1 ≤ v2 :=
  calculateAqiFromPm25_band_and_monotone.2 10 40
    ⟨0, 12, 0, 50, "Good"⟩ ⟨355 / 10, 554 / 10, 101, 150, "Unhealthy for Sensitive Groups"⟩
    (by simp [ranges]) (by simp [ranges]) (by norm_num) (by norm_num) (by norm_num)
    (by norm_num) (by norm_num)

/-! ### Request parameters and the adapter -/

/-- C22: coordinate resolution in the current and the map route follows the
precedence query parameter, then profile location, then default.  The latitude
passed to the adapter is the query `lat` when present, else the latitude of
`preferences.location` when present, else 40.7128; likewise the longitude is the
query `lng`, else the profile longitude, else -74.0060. -/
theorem coordinate_resolution_precedence (queryLat queryLng queryRadius : Option JsNumber)
    (location : Option ProfileLocation) :
    (mapFetchArgs queryLat queryLng queryRadius location).lat =
        (currentFetchArgs queryLat queryLng location).lat ∧
      (mapFetchArgs queryLat queryLng queryRadius location).lng =
        (currentFetchArgs queryLat queryLng location).lng ∧
      (∀ x, queryLat = some x → (currentFetchArgs queryLat queryLng location).lat = x) ∧
      (∀ q, queryLat = none → location.bind (fun l => l.latitude) = some q →
        (currentFetchArgs queryLat queryLng location).lat = JsNumber.fin q) ∧
      (queryLat = none → location.bind (fun l => l.latitude) = none →
        (currentFetchArgs queryLat queryLng location).lat = JsNumber.fin (407128 / 10000)) ∧
      (∀ x, queryLng = some x → (currentFetchArgs queryLat queryLng location).lng = x) ∧
      (∀ q, queryLng = none → location.bind (fun l => l.longitude) = some q →
        (currentFetchArgs queryLat queryLng location).lng = JsNumber.fin q) ∧
      (queryLng = none → location.bind (fun l => l.longitude) = none →
        (currentFetchArgs queryLat queryLng location).lng =
          JsNumber.fin (-740060 / 10000)) := by
  refine ⟨rfl, rfl, ?_, ?_, ?_, ?_, ?_, ?_⟩
  · rintro x rfl
    rfl
  · rintro q rfl hq
    simp only [currentFetchArgs, qLatOf, resolveCoordinate, hq]
  · rintro rfl hq
    simp only [currentFetchArgs, qLatOf, resolveCoordinate, hq]
  · rintro x rfl
    rfl
  · rintro q rfl hq
    simp only [currentFetchArgs, qLngOf, resolveCoordinate, hq]
  · rintro rfl hq
    simp only [currentFetchArgs, qLngOf, resolveCoordinate, hq]

theorem coordinate_resolution_precedence_witness :
    (currentFetchArgs (some (JsNumber.fin 51)) none (some ⟨some 48, some 2⟩)).lat =
        JsNumber.fin 51 ∧
      (currentFetchArgs (some (JsNumber.fin 51)) none (some ⟨some 48, some 2⟩)).lng =
        JsNumber.fin 2 ∧
      (currentFetchArgs none none none).lat = JsNumber.fin (407128 / 10000) :=
  ⟨(coordinate_resolution_precedence (some (JsNumber.fin 51)) none none
      (some ⟨some 48, some 2⟩)).2.2.1 _ rfl,
   (coordinate_resolution_precedence (some (JsNumber.fin 51)) none none
      (some ⟨some 48, some 2⟩)).2.2.2.2.2.2.1 2 rfl rfl,
   (coordinate_resolution_precedence none none none none).2.2.2.2.1 rfl rfl⟩

/-- C23: the map route caps the radius.  For every numeric radius `r` in
kilometres (10 when the query has none) the radius passed to the adapter is
`min(max(r, 1), 25) * 1000` metres, so it lies in `[1000, 25000]` and equals
`r * 1000` whenever `1 ≤ r ≤ 25`. -/
theorem map_radius_capped (queryLat queryLng : Option JsNumber)
    (location : Option ProfileLocation) :
    (∀ r : ℚ,
      (mapFetchArgs queryLat queryLng (some (JsNumber.fin r)) location).radiusMeters =
          JsNumber.fin (min (max r 1) 25 * 1000) ∧
        1000 ≤ min (max r 1) 25 * 1000 ∧ min (max r 1) 25 * 1000 ≤ 25000 ∧
        (1 ≤ r → r ≤ 25 → min (max r 1) 25 * 1000 = r * 1000)) ∧
    (mapFetchArgs queryLat queryLng none location).radiusMeters = JsNumber.fin 10000 := by
  constructor
  · intro r
    refine ⟨rfl, ?_, ?_, ?_⟩
    · have h : (1 : ℚ) ≤ min (max r 1) 25 := le_min (le_max_right _ _) (by norm_num)
      linarith
    · have h : min (max r 1) 25 ≤ (25 : ℚ) := min_le_right _ _
      linarith
    · intro h1 h2
      rw [max_eq_left h1, min_eq_left h2]
  · simp only [mapFetchArgs, radiusKmOf, radiusMetersOf]
    norm_num

theorem map_radius_capped_witness :
    (1 : ℚ) ≤ 7 ∧ (7 : ℚ) ≤ 25 ∧ min (max (7 : ℚ) 1) 25 * 1000 = 7 * 1000 :=
  ⟨by norm_num, by norm_num,
    ((map_radius_capped none none none).1 7).2.2.2 (by norm_num) (by norm_num)⟩

/-- C24, as the spec states it, fails: a response with a success status whose
body does not parse makes `fetchOpenAqMeasurements` raise as well. -/
theorem fetchOpenAqMeasurements_ok_can_fail :
    fetchOpenAqMeasurements
        (fun _ => .ok ⟨true, 200, "<html>", .error "Unexpected token <"⟩)
        ⟨JsNumber.fin 1, JsNumber.fin 2, JsNumber.fin 10000⟩ =
      .error "Unexpected token <" := rfl

/-- C24 (amended): for a response that is not a success status
`fetchOpenAqMeasurements` raises an error whose message carries the status code
and the response body; for a success status it does what `res.json()` does, so
it returns the parsed body without raising whenever the body parses. -/
theorem fetchOpenAqMeasurements_spec (network : FetchArgs → Except String HttpResponse)
    (args : FetchArgs) (res : HttpResponse) (hres : network args = .ok res) :
    (res.ok = false →
      fetchOpenAqMeasurements network args =
        .error ("OpenAQ error " ++ toString res.status ++ ": " ++ res.text)) ∧
    (res.ok = true → fetchOpenAqMeasurements network args = res.json) ∧
    (∀ body, res.ok = true → res.json = .ok body →
      fetchOpenAqMeasurements network args = .ok body) ∧
    (res.json.isOk = true →
      ((∃ message, fetchOpenAqMeasurements network args = .error message) ↔
        res.ok = false)) := by
  have hnot : res.ok = false →
      fetchOpenAqMeasurements network args =
        .error ("OpenAQ error " ++ toString res.status ++ ": " ++ res.text) := by
    intro h
    simp only [fetchOpenAqMeasurements, hres, h, Bool.not_false, if_true]
  have hok : res.ok = true → fetchOpenAqMeasurements network args = res.json := by
    intro h
    simp only [fetchOpenAqMeasurements, hres, h, Bool.not_true, Bool.false_eq_true, if_false]
  refine ⟨hnot, hok, fun body h hb => by rw [hok h, hb], ?_⟩
  intro hjson
  constructor
  · rintro ⟨message, hm⟩
    cases hb : res.ok with
    | false => rfl
    | true =>
      rw [hok hb] at hm
      rw [hm] at hjson
      simp [Except.isOk, Except.toBool] at hjson
  · intro h
    exact ⟨_, hnot h⟩

theorem fetchOpenAqMeasurements_spec_witness :
    fetchOpenAqMeasurements
        (fun _ => .ok ⟨false, 429, "rate limited", .ok Body.null⟩)
        ⟨JsNumber.fin 1, JsNumber.fin 2, JsNumber.fin 10000⟩ =
      .error ("OpenAQ error " ++ toString 429 ++ ": " ++ "rate limited") :=
  (fetchOpenAqMeasurements_spec
    (fun _ => .ok ⟨false, 429, "rate limited", .ok Body.null⟩)
    ⟨JsNumber.fin 1, JsNumber.fin 2, JsNumber.fin 10000⟩
    ⟨false, 429, "rate limited", .ok Body.null⟩ rfl).1 rfl

/-! ### The current-reading route: readings and recommendations -/

/-- C25, on the code: the provider returns one measurement, for pm10, and none
for pm25.  The pm25 value of the response is `null`, but `Number(null)` is 0, so
the aqi is the result for the concentration 0, value 0 with category "Good", and
not the unknown result. -/
theorem currentHandler_missing_pm25_is_good :
    (currentHandler none none
        (.ok (Body.obj (ResultsField.list
          [JsonEntry.meas ⟨Parameter.str "pm10", some 20, some ⟨1, 2⟩, none⟩])))
        ⟨[], some 35, some 50, none, none, none, none⟩ "t").pollutants.pm25 = none ∧
      (currentHandler none none
        (.ok (Body.obj (ResultsField.list
          [JsonEntry.meas ⟨Parameter.str "pm10", some 20, some ⟨1, 2⟩, none⟩])))
        ⟨[], some 35, some 50, none, none, none, none⟩ "t").pollutants.pm10 = some 20 ∧
      (currentHandler none none
        (.ok (Body.obj (ResultsField.list
          [JsonEntry.meas ⟨Parameter.str "pm10", some 20, some ⟨1, 2⟩, none⟩])))
        ⟨[], some 35, some 50, none, none, none, none⟩ "t").aqi.value = some 0 ∧
      (currentHandler none none
        (.ok (Body.obj (ResultsField.list
          [JsonEntry.meas ⟨Parameter.str "pm10", some 20, some ⟨1, 2⟩, none⟩])))
        ⟨[], some 35, some 50, none, none, none, none⟩ "t").aqi.category = "Good" := by
  have hp : currentPollutants
      (.ok (Body.obj (ResultsField.list
        [JsonEntry.meas ⟨Parameter.str "pm10", some 20, some ⟨1, 2⟩, none⟩])))
      ⟨[], some 35, some 50, none, none, none, none⟩ =
      ⟨none, some 20, none, none, none, none⟩ := by
    simp [currentPollutants, liveLatest, latestByParam, latestFrom, latestStep, livePollutants,
      List.lookup, Parameter.key]
  refine ⟨?_, ?_, ?_, ?_⟩ <;> simp [currentHandler, hp, toNumber, calculate_zero]

/-- The shape of a list made of an optional "high" warning followed by an
optional "critical" warning. -/
theorem warnings_shape (b1 b2 : Bool) (P1 P2 : Prop) (h1 : b1 = true ↔ P1)
    (h2 : b2 = true ↔ P2) (m1 m2 : String) :
    ((∃ r ∈ (if b1 = true then
          [({ type := "health_warning", message := m1, severity := "high" } : Recommendation)]
        else []) ++
        (if b2 = true then
          [({ type := "health_warning", message := m2, severity := "critical" } :
            Recommendation)]
        else []), r.severity = "high") ↔ P1) ∧
    ((∃ r ∈ (if b1 = true then
          [({ type := "health_warning", message := m1, severity := "high" } : Recommendation)]
        else []) ++
        (if b2 = true then
          [({ type := "health_warning", message := m2, severity := "critical" } :
            Recommendation)]
        else []), r.severity = "critical") ↔ P2) ∧
    (((if b1 = true then
          [({ type := "health_warning", message := m1, severity := "high" } : Recommendation)]
        else []) ++
        (if b2 = true then
          [({ type := "health_warning", message := m2, severity := "critical" } :
            Recommendation)]
        else [])).map (fun r => r.severity)).Sublist ["high", "critical"] ∧
    (¬ P1 → ¬ P2 →
      (if b1 = true then
          [({ type := "health_warning", message := m1, severity := "high" } : Recommendation)]
        else []) ++
        (if b2 = true then
          [({ type := "health_warning", message := m2, severity := "critical" } :
            Recommendation)]
        else []) = []) := by
  rw [← h1, ← h2]
  cases b1 <;> cases b2 <;> simp

/-- The test `(aqi.value ?? 0) > n` for a threshold that is not negative. -/
theorem value_gt_iff (aqi : AqiResult) (n : ℤ) (hn : 0 ≤ n) :
    decide (aqi.value.getD 0 > n) = true ↔ ∃ v, aqi.value = some v ∧ n < v := by
  cases hv : aqi.value with
  | none =>
    simp only [Option.getD_none, gt_iff_lt, decide_eq_true_eq]
    constructor
    · intro h
      omega
    · rintro ⟨v, hv2, _⟩
      cases hv2
  | some w =>
    simp only [Option.getD_some, gt_iff_lt, decide_eq_true_eq, Option.some.injEq,
      exists_eq_left']

/-- The list of recommendations is an optional "high" warning followed by an
optional "critical" warning, each under its own test. -/
theorem personalizedRecommendations_cases (health : Option HealthData) (aqi : AqiResult) :
    ∃ b1 b2 : Bool,
      (b1 = true ↔
        (∃ h, health = some h ∧
          (h.sensitivity = some "high" ∨ ∃ cs, h.conditions = some cs ∧ "asthma" ∈ cs)) ∧
        ∃ v, aqi.value = some v ∧ 50 < v) ∧
      (b2 = true ↔
        (∃ h cs, health = some h ∧ h.conditions = some cs ∧ "copd" ∈ cs) ∧
        ∃ v, aqi.value = some v ∧ 100 < v) ∧
      personalizedRecommendations health aqi =
        (if b1 = true then
          [({ type := "health_warning",
              message := "High sensitivity detected: consider limiting outdoor exposure",
              severity := "high" } : Recommendation)]
        else []) ++
        (if b2 = true then
          [({ type := "health_warning",
              message := "COPD: Avoid outdoor activities due to poor air quality",
              severity := "critical" } : Recommendation)]
        else []) := by
  refine ⟨_, _, ?_, ?_, rfl⟩
  · rw [Bool.and_eq_true, value_gt_iff aqi 50 (by norm_num)]
    apply and_congr_left'
    rcases health with _ | ⟨sens, _ | cs⟩ <;> simp
  · rw [Bool.and_eq_true, value_gt_iff aqi 100 (by norm_num)]
    apply and_congr_left'
    rcases health with _ | ⟨sens, _ | cs⟩ <;> simp

/-- C30: the personalised recommendations are determined by the AQI value and
the health profile.  The list has the warning of severity "high" exactly when
the sensitivity is "high" or the conditions include "asthma", and the value is
above 50; it has the warning of severity "critical" exactly when the conditions
include "copd" and the value is above 100; "high" comes before "critical"; and
the list is empty when the value is `null` or at most 50, or when the user has
no health data. -/
theorem personalizedRecommendations_spec (health : Option HealthData) (aqi : AqiResult) :
    ((∃ r ∈ personalizedRecommendations health aqi, r.severity = "high") ↔
      (∃ h, health = some h ∧
        (h.sensitivity = some "high" ∨ ∃ cs, h.conditions = some cs ∧ "asthma" ∈ cs)) ∧
      ∃ v, aqi.value = some v ∧ 50 < v) ∧
    ((∃ r ∈ personalizedRecommendations health aqi, r.severity = "critical") ↔
      (∃ h cs, health = some h ∧ h.conditions = some cs ∧ "copd" ∈ cs) ∧
      ∃ v, aqi.value = some v ∧ 100 < v) ∧
    ((personalizedRecommendations health aqi).map (fun r => r.severity)).Sublist
      ["high", "critical"] ∧
    (aqi.value = none → personalizedRecommendations health aqi = []) ∧
    (∀ v, aqi.value = some v → v ≤ 50 → personalizedRecommendations health aqi = []) ∧
    (health = none → personalizedRecommendations health aqi = []) ∧
    (∀ (apiKey : Option String) (outcome : Except String Body) (sample : Sample)
        (now : String),
      (currentHandler apiKey health outcome sample now).personalizedRecommendations =
        personalizedRecommendations health
          (currentHandler apiKey health outcome sample now).aqi) := by
  obtain ⟨b1, b2, h1, h2, heq⟩ := personalizedRecommendations_cases health aqi
  obtain ⟨k1, k2, k3, k4⟩ := warnings_shape b1 b2 _ _ h1 h2
    "High sensitivity detected: consider limiting outdoor exposure"
    "COPD: Avoid outdoor activities due to poor air quality"
  rw [← heq] at k1 k2 k3 k4
  refine ⟨k1, k2, k3, ?_, ?_, ?_, fun _ _ _ _ => rfl⟩
  · intro hv
    apply k4
    · rintro ⟨_, v, hv2, _⟩
      rw [hv] at hv2
      cases hv2
    · rintro ⟨_, v, hv2, _⟩
      rw [hv] at hv2
      cases hv2
  · intro v hv hle
    apply k4
    · rintro ⟨_, w, hw, hlt⟩
      rw [hv] at hw
      cases hw
      omega
    · rintro ⟨_, w, hw, hlt⟩
      rw [hv] at hw
      cases hw
      omega
  · intro hn
    apply k4
    · rintro ⟨⟨h, hh, _⟩, _⟩
      rw [hn] at hh
      cases hh
    · rintro ⟨⟨h, cs, hh, _⟩, _⟩
      rw [hn] at hh
      cases hh

theorem personalizedRecommendations_spec_witness :
    personalizedRecommendations (some ⟨some "high", some ["copd"]⟩)
        ⟨some 42, "Good", none⟩ = [] ∧
      personalizedRecommendations none ⟨some 180, "Unhealthy", none⟩ = [] :=
  ⟨(personalizedRecommendations_spec (some ⟨some "high", some ["copd"]⟩)
      ⟨some 42, "Good", none⟩).2.2.2.2.1 42 rfl (by decide),
   (personalizedRecommendations_spec none ⟨some 180, "Unhealthy", none⟩).2.2.2.2.2.1 rfl⟩

/-! ### The loop over the results in the current-reading route -/

/-- Reading a key after one pass of the loop body: what was stored stays, and
an unset key takes the measurement when its parameter name is that key. -/
theorem lookup_latestStep (name : String) (latest : List (String × Measurement))
    (m : Measurement) :
    (latestStep latest m).lookup name =
      (latest.lookup name).orElse
        (fun _ => if m.parameter.key = name then some m else none) := by
  unfold latestStep
  by_cases hk : m.parameter.key = name
  · subst hk
    cases hl : latest.lookup m.parameter.key with
    | none => simp [hl, List.lookup]
    | some x => simp [hl]
  · have hne : (name == m.parameter.key) = false := by
      simp only [beq_eq_false_iff_ne, ne_eq]
      exact fun h => hk h.symm
    cases hl : latest.lookup m.parameter.key with
    | none =>
      simp only [hl, Option.isSome_none, Bool.false_eq_true, if_false, List.lookup, hne, hk]
      cases latest.lookup name <;> rfl
    | some x =>
      simp only [hl, Option.isSome_some, if_true, hk, if_false]
      cases latest.lookup name <;> rfl

/-- The loop of the current route on a list without a `null` entry: it
completes, and a key reads what was stored before the loop or else the first
measurement of the list with that parameter name. -/
theorem latestFrom_spec (es : List JsonEntry) :
    ∀ latest : List (String × Measurement), JsonEntry.null ∉ es →
      ∃ result, latestFrom latest es = some result ∧
        ∀ name, result.lookup name =
          (latest.lookup name).orElse
            (fun _ => (measurementsOf es).find? (fun m => decide (m.parameter.key = name))) := by
  induction es with
  | nil =>
    intro latest _
    refine ⟨latest, rfl, fun name => ?_⟩
    cases latest.lookup name <;> rfl
  | cons e es ih =>
    intro latest hnull
    have hrest : JsonEntry.null ∉ es := fun h => hnull (List.mem_cons_of_mem _ h)
    cases e with
    | null => exact absurd (List.mem_cons_self _ _) hnull
    | primitive =>
      obtain ⟨result, h1, h2⟩ := ih latest hrest
      exact ⟨result, by simpa only [latestFrom] using h1, by simpa only [measurementsOf] using h2⟩
    | meas m =>
      obtain ⟨result, h1, h2⟩ := ih (latestStep latest m) hrest
      refine ⟨result, by simpa only [latestFrom] using h1, fun name => ?_⟩
      rw [h2 name, lookup_latestStep]
      simp only [measurementsOf, List.find?_cons]
      cases latest.lookup name with
      | some x => rfl
      | none =>
        by_cases hk : m.parameter.key = name
        · simp [hk]
        · simp [hk]

/-- C28: the current route takes the first-listed value per parameter.  For
every result list without a `null` entry each of pm25, pm10, o3, no2, so2 and co
of the response is the value of the first measurement of the list whose
parameter name equals it, or `null` if there is none; the name is the plain
string or the `name` field of a nested object. -/
theorem currentHandler_first_listed (apiKey : Option String) (health : Option HealthData)
    (es : List JsonEntry) (sample : Sample) (now : String) (hnull : JsonEntry.null ∉ es) :
    (currentHandler apiKey health (.ok (Body.obj (ResultsField.list es))) sample now).pollutants =
        { pm25 := firstValueOf "pm25" (measurementsOf es),
          pm10 := firstValueOf "pm10" (measurementsOf es),
          o3 := firstValueOf "o3" (measurementsOf es),
          no2 := firstValueOf "no2" (measurementsOf es),
          so2 := firstValueOf "so2" (measurementsOf es),
          co := firstValueOf "co" (measurementsOf es) } ∧
      (∀ s : String, (Parameter.str s).key = s) ∧
      (∀ s : String, s ≠ "" → (Parameter.obj (some s)).key = s) := by
  obtain ⟨result, h1, h2⟩ := latestFrom_spec es [] hnull
  refine ⟨?_, fun _ => rfl, fun s hs => by simp only [Parameter.key, if_neg hs]⟩
  have hl : ∀ name, result.lookup name =
      (measurementsOf es).find? (fun m => decide (m.parameter.key = name)) := by
    intro name
    rw [h2 name]
    rfl
  simp only [currentHandler, currentPollutants, liveLatest, latestByParam, h1, livePollutants,
    hl, firstValueOf]

theorem currentHandler_first_listed_witness :
    (currentHandler none none
        (.ok (Body.obj (ResultsField.list
          [JsonEntry.meas ⟨Parameter.obj (some "pm25"), some 8, none, none⟩,
           JsonEntry.meas ⟨Parameter.str "pm25", some 30, none, none⟩])))
        ⟨[], some 35, some 50, none, none, none, none⟩ "t").pollutants.pm25 =
      firstValueOf "pm25"
        (measurementsOf
          [JsonEntry.meas ⟨Parameter.obj (some "pm25"), some 8, none, none⟩,
           JsonEntry.meas ⟨Parameter.str "pm25", some 30, none, none⟩]) :=
  congrArg Pollutants.pm25
    (currentHandler_first_listed none none
      [JsonEntry.meas ⟨Parameter.obj (some "pm25"), some 8, none, none⟩,
       JsonEntry.meas ⟨Parameter.str "pm25", some 30, none, none⟩]
      ⟨[], some 35, some 50, none, none, none, none⟩ "t" (by simp)).1

/-! ### The shapes of the map response -/

/-- C26: in a live map response (dataSource "openaq_v3") mapData is not empty
and the bounds are the extremes of mapData: north and south the maximum and
minimum latitude, east and west the maximum and minimum longitude, so every
point lies within the bounds and each bound is attained by some point. -/
theorem mapHandler_live_bounds (outcome : Except String Body) (sample : Sample) (now : String)
    (r : MapResponse) (hr : mapHandler outcome sample now = MapResult.ok r)
    (hlive : r.dataSource = "openaq_v3") :
    r.mapData ≠ [] ∧
      ∃ n s e w : ℚ,
        r.bounds =
          { north := Extreme.fin n, south := Extreme.fin s,
            east := Extreme.fin e, west := Extreme.fin w } ∧
        (∀ p ∈ r.mapData,
          s ≤ p.latitude ∧ p.latitude ≤ n ∧ w ≤ p.longitude ∧ p.longitude ≤ e) ∧
        (∃ p ∈ r.mapData, p.latitude = n) ∧ (∃ p ∈ r.mapData, p.latitude = s) ∧
        (∃ p ∈ r.mapData, p.longitude = e) ∧ (∃ p ∈ r.mapData, p.longitude = w) := by
  have hsample : ∀ tag : String, tag ≠ "openaq_v3" →
      MapResult.ok (sampleMapResponse sample now tag) = MapResult.ok r → False := by
    intro tag htag h
    simp only [MapResult.ok.injEq] at h
    rw [← h] at hlive
    exact htag hlive
  have hresults : ∀ es, mapFromResults es sample now = MapResult.ok r →
      r.mapData ≠ [] ∧ r.bounds = boundsOf r.mapData := by
    intro es h
    unfold mapFromResults at h
    cases hg : groupByLocation es with
    | none =>
      rw [hg] at h
      cases h
    | some byLoc =>
      rw [hg] at h
      simp only [] at h
      by_cases hlen : (pointsOf byLoc).length = 0
      · rw [if_pos hlen] at h
        exact (hsample "sample_empty" (by decide) h).elim
      · rw [if_neg hlen] at h
        simp only [MapResult.ok.injEq] at h
        subst h
        refine ⟨fun hnil => hlen ?_, rfl⟩
        have hpts : pointsOf byLoc = [] := hnil
        rw [hpts]
        rfl
  have hmain : r.mapData ≠ [] ∧ r.bounds = boundsOf r.mapData := by
    rcases outcome with msg | body
    · exact (hsample "sample_fallback" (by decide) hr).elim
    · rcases body with _ | results
      · exact (hsample "sample_fallback" (by decide) hr).elim
      · rcases results with _ | es | _
        · exact hresults [] hr
        · exact hresults es hr
        · cases hr
  obtain ⟨hne, hb⟩ := hmain
  refine ⟨hne, ?_⟩
  rw [hb]
  exact boundsOf_spec r.mapData hne

theorem mapHandler_live_bounds_witness :
    (pointsOf [((1, 2),
        (⟨[("pm25", ⟨Parameter.str "pm25", some 10, some ⟨1, 2⟩, none⟩)], ⟨1, 2⟩⟩ :
          LocEntry))]) ≠ [] :=
  (mapHandler_live_bounds
    (.ok (Body.obj (ResultsField.list
      [JsonEntry.meas ⟨Parameter.str "pm25", some 10, some ⟨1, 2⟩, none⟩])))
    ⟨[], some 35, some 50, none, none, none, none⟩ "t"
    { mapData := pointsOf [((1, 2),
        (⟨[("pm25", ⟨Parameter.str "pm25", some 10, some ⟨1, 2⟩, none⟩)], ⟨1, 2⟩⟩ :
          LocEntry))],
      bounds := boundsOf (pointsOf [((1, 2),
        (⟨[("pm25", ⟨Parameter.str "pm25", some 10, some ⟨1, 2⟩, none⟩)], ⟨1, 2⟩⟩ :
          LocEntry))]),
      lastUpdated := "t",
      dataSource := "openaq_v3" }
    (by
      simp [mapHandler, mapFromResults, groupByLocation, groupFrom, groupStep, setEntry, keyFor,
        pointsOf, Parameter.key])
    rfl).1

/-- Primitive entries leave the grouping as it is without them. -/
theorem groupFrom_filter_primitive (es : List JsonEntry) :
    ∀ acc : List ((ℚ × ℚ) × LocEntry),
      groupFrom acc es = groupFrom acc (es.filter (fun e => decide (e ≠ JsonEntry.primitive))) := by
  induction es with
  | nil => intro acc; rfl
  | cons e es ih =>
    intro acc
    cases e with
    | null => simp [groupFrom]
    | primitive => simpa [groupFrom] using ih acc
    | meas m => simpa [groupFrom] using ih (groupStep acc m)

/-- C21, as the spec states it, fails: a body whose `results` array holds a
`null` entry, and a body whose `results` value cannot be iterated, make the map
handler answer with the 500 error response. -/
theorem mapHandler_malformed_counterexample :
    mapHandler (.ok (Body.obj (ResultsField.list [JsonEntry.null])))
        ⟨[], some 35, some 50, none, none, none, none⟩ "t" = MapResult.error500 ∧
      mapHandler (.ok (Body.obj ResultsField.notIterable))
        ⟨[], some 35, some 50, none, none, none, none⟩ "t" = MapResult.error500 := by
  constructor <;> rfl

/-- C21 (amended): for a successfully fetched body whose `results` field is
missing, or whose entries are all primitives or objects without coordinates, the
map handler builds no points and returns the sample response tagged
"sample_empty"; a `null` body is handled like an adapter failure and gives the
sample response tagged "sample_fallback"; and a primitive entry contributes no
point, the response being the one for the list without it. -/
theorem mapHandler_malformed_spec (sample : Sample) (now : String) :
    mapHandler (.ok (Body.obj ResultsField.falsy)) sample now =
        MapResult.ok (sampleMapResponse sample now "sample_empty") ∧
      (∀ es : List JsonEntry,
        (∀ e ∈ es, e = JsonEntry.primitive ∨
          ∃ m, e = JsonEntry.meas m ∧ m.coordinates = none) →
        mapHandler (.ok (Body.obj (ResultsField.list es))) sample now =
          MapResult.ok (sampleMapResponse sample now "sample_empty")) ∧
      (∀ msg : String,
        mapHandler (.ok Body.null) sample now = mapHandler (.error msg) sample now) ∧
      mapHandler (.ok Body.null) sample now =
        MapResult.ok (sampleMapResponse sample now "sample_fallback") ∧
      (∀ es : List JsonEntry,
        mapHandler (.ok (Body.obj (ResultsField.list es))) sample now =
          mapHandler (.ok (Body.obj (ResultsField.list
            (es.filter (fun e => decide (e ≠ JsonEntry.primitive)))))) sample now) ∧
      (sampleMapResponse sample now "sample_empty").mapData = sample.mapData ∧
      (sampleMapResponse sample now "sample_fallback").mapData = sample.mapData := by
  refine ⟨rfl, ?_, fun _ => rfl, rfl, ?_, rfl, rfl⟩
  · intro es h
    simp only [mapHandler, mapFromResults, groupByLocation, groupFrom_no_coordinates es [] h,
      pointsOf, List.map_nil, List.length_nil, if_true]
  · intro es
    simp only [mapHandler, mapFromResults, groupByLocation]
    rw [← groupFrom_filter_primitive]

theorem mapHandler_malformed_spec_witness :
    mapHandler
        (.ok (Body.obj (ResultsField.list
          [JsonEntry.primitive, JsonEntry.meas ⟨Parameter.absent, none, none, none⟩])))
        ⟨[], some 35, some 50, none, none, none, none⟩ "t" =
      MapResult.ok
        (sampleMapResponse ⟨[], some 35, some 50, none, none, none, none⟩ "t" "sample_empty") :=
  (mapHandler_malformed_spec ⟨[], some 35, some 50, none, none, none, none⟩ "t").2.1
    [JsonEntry.primitive, JsonEntry.meas ⟨Parameter.absent, none, none, none⟩]
    (by
      intro e he
      simp only [List.mem_cons, List.mem_singleton, List.not_mem_nil, or_false] at he
      rcases he with rfl | rfl
      · exact Or.inl rfl
      · exact Or.inr ⟨_, rfl, rfl⟩)

/-! ### The profile update of the simplified server -/

/-- C27, on the code: the simplified server holds one user with the email
"ann@example.com"; an authenticated `PUT /api/user/profile` whose body carries
an `email` property stores that value, since `Object.assign(user, req.body)`
copies every property of the body.  The filter of `routes/user.js` drops the
same property. -/
theorem putProfile_changes_email :
    ((putProfile
        [[("id", "1"), ("name", "Ann"), ("email", "ann@example.com"), ("password", "pw")]]
        (some "1") [("email", "eve@example.com")]).1.map
          (fun u => u.lookup "email")) = [some "eve@example.com"] ∧
      (putProfile
        [[("id", "1"), ("name", "Ann"), ("email", "ann@example.com"), ("password", "pw")]]
        (some "1") [("email", "eve@example.com")]).2 =
        ProfileStatus.updated
          [("id", "1"), ("name", "Ann"), ("email", "eve@example.com"), ("password", "pw")] ∧
      filteredUpdates [("email", "eve@example.com")] = [] := by
  refine ⟨?_, ?_, ?_⟩
  · decide
  · decide
  · decide

end CleanSkies
